import Mathlib

/-! FastLED clocked chipsets and SPI device layer.

A shallow embedding of the clocked-chipset controllers of `src/chipsets.h`
(APA102 framing and wire-length computation) and of the SPI device layer that
`tests/fl/spi.cpp` exercises (`Config`, `Device`, `DMABuffer`, the bus
registry), followed by the properties established about them.

Machine integers are natural numbers with an explicit wrap: `size_t` is a
`w`-bit unsigned integer, the width `w` being a parameter of every function
that computes in `size_t` (16 on AVR, 32 on ESP32, 64 on a desktop host).
Bytes sent on the SPI bus are natural numbers below 256.
-/

namespace FastLED

/-! ## Machine arithmetic -/

/-- Reduction of a natural number to a `w`-bit unsigned machine integer. -/
def wrap (w : Nat) (x : Nat) : Nat := x % 2 ^ w

/-- Unsigned `w`-bit addition. -/
def addW (w a b : Nat) : Nat := wrap w (a + b)

/-- Unsigned `w`-bit multiplication. -/
def mulW (w a b : Nat) : Nat := wrap w (a * b)

/-! ## APA102: wire-length computation (chipsets.h, lines 758-790) -/

namespace APA102Controller

/-- `APA102Controller::getPaddingByte`. -/
def getPaddingByte : Nat := 0xFF

/-- `APA102Controller::getPaddingLEDFrame`: the static four-byte frame. -/
def getPaddingLEDFrame : List Nat := [0xE0, 0x00, 0x00, 0x00]

/-- `APA102Controller::getPaddingLEDFrameSize`. -/
def getPaddingLEDFrameSize : Nat := 4

/-- `APA102Controller::calculateBytes(size_t num_leds)`, evaluated in `w`-bit
`size_t` arithmetic exactly as written:
`4 + (num_leds * 4) + (4 * ((num_leds / 32) + 1))`. -/
def calculateBytes (w : Nat) (num_leds : Nat) : Nat :=
  addW w (addW w 4 (mulW w num_leds 4)) (mulW w 4 (addW w (num_leds / 32) 1))

end APA102Controller

/-! ## SPI output stream

`fl::SPIOutput` is declared in another header. Only the sequence of bytes it
is asked to clock out matters here, so the bus is the list of bytes written so
far, oldest first. -/

/-- Modelled from the spec: the SPI back end `fl::SPIOutput` (not among the
sources), the hardware controller that transmits what it is given. Its state
is the list of bytes written so far. -/
structure SPIOutput where
  out : List Nat
deriving DecidableEq, Repr

namespace SPIOutput

/-- Modelled from the spec: `SPIOutput::writeByte(u8)` (not among the sources)
clocks out one byte. -/
def writeByte (spi : SPIOutput) (b : Nat) : SPIOutput :=
  { out := spi.out ++ [b % 256] }

/-- Modelled from the spec: `SPIOutput::writeWord(u16)` (not among the sources)
clocks out two bytes, the most significant first. -/
def writeWord (spi : SPIOutput) (v : Nat) : SPIOutput :=
  { out := spi.out ++ [(v % 65536) / 256, v % 256] }

end SPIOutput

/-! ## APA102: framing and pixel output (chipsets.h, lines 602-730) -/

namespace APA102Controller

/-- `APA102Controller::startBoundary`, for the template parameter `START_FRAME`. -/
def startBoundary (START_FRAME : Nat) (spi : SPIOutput) : SPIOutput :=
  (spi.writeWord (START_FRAME >>> 16)).writeWord (START_FRAME &&& 0xFFFF)

/-- The `do { ... } while (nDWords--)` loop of `endBoundary`: the body writes
the four end-frame bytes, then the old value of `nDWords` is tested and the
variable decremented. `fuel` bounds the number of iterations; `none` means the
loop was still running when the fuel ran out. -/
def endBoundaryLoop (b0 b1 b2 b3 : Nat) : Nat → Int → SPIOutput → Option SPIOutput
  | 0, _, _ => none
  | fuel + 1, nDWords, spi =>
    let spi1 := (((spi.writeByte b0).writeByte b1).writeByte b2).writeByte b3
    if nDWords ≠ 0 then endBoundaryLoop b0 b1 b2 b3 fuel (nDWords - 1) spi1
    else some spi1

/-- `APA102Controller::endBoundary(int nLeds)`, for the template parameter
`END_FRAME`; `nLeds / 32` is C integer division (truncating). -/
def endBoundary (END_FRAME : Nat) (fuel : Nat) (nLeds : Int) (spi : SPIOutput) :
    Option SPIOutput :=
  let nDWords := Int.tdiv nLeds 32
  let b0 := (END_FRAME >>> 24 &&& 0xFF) % 256
  let b1 := (END_FRAME >>> 16 &&& 0xFF) % 256
  let b2 := (END_FRAME >>> 8 &&& 0xFF) % 256
  let b3 := (END_FRAME >>> 0 &&& 0xFF) % 256
  endBoundaryLoop b0 b1 b2 b3 fuel nDWords spi

/-- `APA102Controller::writeLed(brightness, b0, b1, b2)`; `byteOnly` selects the
`FASTLED_SPI_BYTE_ONLY` branch of the preprocessor conditional. -/
def writeLed (byteOnly : Bool) (spi : SPIOutput) (brightness b0 b1 b2 : Nat) : SPIOutput :=
  if byteOnly then
    (((spi.writeByte (0xE0 ||| brightness)).writeByte b0).writeByte b1).writeByte b2
  else
    let b := (0xE000 ||| (brightness <<< 8) ||| b0) % 65536
    let spi1 := spi.writeWord b
    let v := (b1 <<< 8) % 65536
    let v := v ||| b2
    spi1.writeWord v

/-- `APA102Controller::showPixelsDefault`. The pixel controller is represented
by `pixels`, the list of channel triples `(c0, c1, c2)` that `loadAndScaleRGB`
yields for the successive pixels (so `pixels.has(1)` is non-emptiness of what
remains and `pixels.size()` is the length), and by `global_brightness`, the
value that `getGlobalBrightnessAndScalingFactors` stores. `select`,
`waitFully`, `release` and `finalizeTransmission` put no byte on the bus. -/
def showPixelsDefault (byteOnly : Bool) (START_FRAME END_FRAME : Nat) (fuel : Nat)
    (global_brightness : Nat) (pixels : List (Nat × Nat × Nat)) (spi : SPIOutput) :
    Option SPIOutput :=
  let spi1 := startBoundary START_FRAME spi
  let spi2 := pixels.foldl
    (fun s p => writeLed byteOnly s global_brightness p.1 p.2.1 p.2.2) spi1
  endBoundary END_FRAME fuel (pixels.length : Int) spi2

end APA102Controller

/-! ## SPI device layer (`fl::spi`), as exercised by tests/fl/spi.cpp

The implementation of `fl/spi.h` and of the bus manager is not among the
sources; only its test-suite is. The definitions of this section follow the
specification of the layer (sections 3, 4 and 7) and are named after the
entities the tests use. -/

namespace spi

/-- Modelled from the spec: the closed error-code enumeration `fl::SPIError`
(not among the sources). The four codes the specification names, and
`INVALID_CONFIG` for the configuration error class of section 7 (an invalid
`spi_mode`), for which the specification names no code. -/
inductive SPIError where
  | NOT_INITIALIZED
  | BUFFER_TOO_LARGE
  | ALLOCATION_FAILED
  | BUSY
  | INVALID_CONFIG
deriving DecidableEq, Repr

/-- Modelled from the spec: `Result<T>` (not among the sources), a tagged
success or failure value; the failure carries an error code and a message. -/
inductive Result (T : Type) where
  | success (value : T)
  | failure (code : SPIError) (message : String)
deriving Repr

namespace Result

/-- `Result<T>::ok()`. -/
def ok {T : Type} : Result T → Bool
  | .success _ => true
  | .failure _ _ => false

/-- `Result<T>::error()`, defined only when not ok. -/
def error {T : Type} : Result T → Option SPIError
  | .success _ => none
  | .failure c _ => some c

/-- `Result<T>::message()`, possibly empty. -/
def message {T : Type} : Result T → String
  | .success _ => ""
  | .failure _ m => m

/-- `Result<T>::value()`, defined only when ok. -/
def value {T : Type} : Result T → Option T
  | .success v => some v
  | .failure _ _ => none

end Result

/-- Modelled from the spec: `Config` (not among the sources): clock pin, data
pins, clock speed in Hz (u32) and SPI mode (u8). -/
structure Config where
  clock_pin : Int
  data_pins : List Int
  clock_speed_hz : Nat
  spi_mode : Nat
deriving DecidableEq, Repr

/-- Modelled from the spec: the two-pin constructor `Config(clock, data)` with
its defaults, clock speed "maximum supported" and mode 0. -/
def Config.ofPins (clock data : Int) : Config :=
  { clock_pin := clock, data_pins := [data], clock_speed_hz := 0xFFFFFFFF, spi_mode := 0 }

/-- Modelled from the spec: the lane limit of one clock line. -/
def MAX_LANES_PER_CLOCK : Nat := 8

/-- Modelled from the spec: `BusRegistry` (the bus manager, not among the
sources), the process-wide collection of registered lanes; a lane is recorded
as its clock line together with its data-pin assignment. -/
structure BusRegistry where
  lanes : List (Int × List Int)
deriving DecidableEq, Repr

namespace BusRegistry

/-- The registry before any registration. -/
def empty : BusRegistry := { lanes := [] }

/-- Number of lanes currently registered on clock line `clock`. -/
def lanesOn (r : BusRegistry) (clock : Int) : Nat :=
  r.lanes.countP (fun l => decide (l.1 = clock))

/-- Modelled from the spec: `register(clock_pin, data_pins)` yields a lane slot,
or `Err(Busy)` when the clock line is already at capacity. -/
def register (r : BusRegistry) (clock : Int) (pins : List Int) :
    Except SPIError BusRegistry :=
  if MAX_LANES_PER_CLOCK ≤ r.lanesOn clock then .error SPIError.BUSY
  else .ok { lanes := (clock, pins) :: r.lanes }

/-- Modelled from the spec: `unregister(clock_pin, data_pins)` releases a slot. -/
def unregister (r : BusRegistry) (clock : Int) (pins : List Int) : BusRegistry :=
  { lanes := r.lanes.erase (clock, pins) }

/-- Modelled from the spec: `reset()` unconditionally clears all registrations. -/
def reset (_r : BusRegistry) : BusRegistry := { lanes := [] }

end BusRegistry

/-- An operation on the registry. -/
inductive RegistryOp where
  | register (clock : Int) (pins : List Int)
  | unregister (clock : Int) (pins : List Int)
  | reset
deriving DecidableEq, Repr

/-- Effect of one operation on the registry; a rejected registration leaves
the registry as it was. -/
def BusRegistry.step (r : BusRegistry) : RegistryOp → BusRegistry
  | .register clock pins =>
    match r.register clock pins with
    | .ok r1 => r1
    | .error _ => r
  | .unregister clock pins => r.unregister clock pins
  | .reset => r.reset

/-- The registry reached from `r` by a sequence of operations. -/
def BusRegistry.run (r : BusRegistry) (ops : List RegistryOp) : BusRegistry :=
  ops.foldl BusRegistry.step r

/-- Registers the given lanes one after the other on clock line `clock`,
stopping at the first rejection. -/
def BusRegistry.registerAll (r : BusRegistry) (clock : Int) :
    List (List Int) → Except SPIError BusRegistry
  | [] => .ok r
  | pins :: rest =>
    match r.register clock pins with
    | .ok r1 => r1.registerAll clock rest
    | .error e => .error e

/-- Modelled from the spec: `DMABuffer` (not among the sources), the transfer
buffer: either an owned byte region or an error code without data. -/
inductive DMABuffer where
  | valid (bytes : List Nat)
  | invalid (code : SPIError)
deriving DecidableEq, Repr

namespace DMABuffer

/-- `DMABuffer::ok()`. -/
def ok : DMABuffer → Bool
  | .valid _ => true
  | .invalid _ => false

/-- `DMABuffer::error()`, defined when the buffer is not ok. -/
def error : DMABuffer → Option SPIError
  | .valid _ => none
  | .invalid e => some e

/-- `DMABuffer::data()`: the writable bytes (none for a failed buffer). -/
def data : DMABuffer → List Nat
  | .valid bytes => bytes
  | .invalid _ => []

/-- `DMABuffer::size()`. -/
def size (b : DMABuffer) : Nat := b.data.length

end DMABuffer

/-- Modelled from the spec: the state of a `Transaction`. -/
inductive TransactionState where
  | Pending
  | Done
  | Cancelled
deriving DecidableEq, Repr

/-- Modelled from the spec: `Transaction` (not among the sources), the handle
of one transfer: its state, the bytes queued, and the recorded result (no
error meaning a fully transmitted frame). -/
structure Transaction where
  state : TransactionState
  payload : List Nat
  result : Option SPIError
deriving DecidableEq, Repr

/-- Modelled from the spec: `Device` (not among the sources): its
configuration, whether it is registered and ready, and whether a transfer is
in flight. -/
structure Device where
  config : Config
  ready : Bool
  busy : Bool
deriving DecidableEq, Repr

namespace Device

/-- Modelled from the spec: construction leaves the device unregistered. -/
def new (cfg : Config) : Device := { config := cfg, ready := false, busy := false }

/-- `Device::isReady()`. -/
def isReady (d : Device) : Bool := d.ready

/-- `Device::isBusy()`. -/
def isBusy (d : Device) : Bool := d.busy

/-- `Device::getConfig()`. -/
def getConfig (d : Device) : Config := d.config

/-- Modelled from the spec: `begin()` is a no-op success when already ready;
otherwise it validates `spi_mode ∈ {0,1,2,3}`, any other value failing the call
with the device left not ready, and registers `(clock_pin, data_pins)` with the
registry, which may fail with a capacity error. Returns the optional error,
the registry and the device afterwards. -/
def begin (r : BusRegistry) (d : Device) : Option SPIError × BusRegistry × Device :=
  if d.ready then (none, r, d)
  else if d.config.spi_mode ∉ [0, 1, 2, 3] then (some SPIError.INVALID_CONFIG, r, d)
  else
    match r.register d.config.clock_pin d.config.data_pins with
    | .error e => (some e, r, d)
    | .ok r1 => (none, r1, { d with ready := true })

/-- Modelled from the spec: `end()` deregisters and releases resources; it is
safe and idempotent when `begin()` was never called. -/
def end_ (r : BusRegistry) (d : Device) : BusRegistry × Device :=
  if d.ready then
    (r.unregister d.config.clock_pin d.config.data_pins,
      { d with ready := false, busy := false })
  else (r, d)

/-- Modelled from the spec: `acquireBuffer(size)` fails with `NotInitialized`
if the device is not ready, fails with `AllocationFailed` if `size == 0` or the
backing allocation cannot be satisfied, otherwise returns a buffer exposing
exactly `size` writable bytes. `alloc n` tells whether a backing allocation of
`n` bytes can be satisfied. -/
def acquireBuffer (alloc : Nat → Bool) (d : Device) (size : Nat) : DMABuffer :=
  if !d.ready then .invalid SPIError.NOT_INITIALIZED
  else if size = 0 ∨ alloc size = false then .invalid SPIError.ALLOCATION_FAILED
  else .valid (List.replicate size 0)

/-- Modelled from the spec: `writeAsync(data, length)` validates
`data != null` and `length > 0` (else `AllocationFailed`), then `ready == true`
(else `NotInitialized`); a transfer still outstanding rejects the call
(`Busy`), as does a failed allocation of the transaction (`AllocationFailed`);
on success the first `length` bytes are queued, a pending transaction is
returned and the device is busy. A null pointer is `none`. -/
def writeAsync (alloc : Nat → Bool) (d : Device) (data : Option (List Nat)) (length : Nat) :
    Result Transaction × Device :=
  match data with
  | none => (.failure SPIError.ALLOCATION_FAILED "", d)
  | some bytes =>
    if length = 0 then (.failure SPIError.ALLOCATION_FAILED "", d)
    else if !d.ready then (.failure SPIError.NOT_INITIALIZED "", d)
    else if d.busy then (.failure SPIError.BUSY "", d)
    else if alloc length = false then (.failure SPIError.ALLOCATION_FAILED "", d)
    else
      (.success { state := TransactionState.Pending, payload := bytes.take length, result := none },
        { d with busy := true })

/-- Modelled from the spec: `transmit(buffer, blocking)` consumes a previously
acquired buffer. It fails with `NotInitialized` on a device that is not ready,
with the buffer's own error code when the buffer is not valid, and with `Busy`
while a transfer is in flight; a blocking call returns after completion (the
device is idle again), a non-blocking one leaves the device busy. -/
def transmit (d : Device) (buffer : DMABuffer) (blocking : Bool) :
    Option SPIError × Device :=
  if !d.ready then (some SPIError.NOT_INITIALIZED, d)
  else
    match buffer with
    | .invalid e => (some e, d)
    | .valid _ =>
      if d.busy then (some SPIError.BUSY, d)
      else if blocking then (none, d)
      else (none, { d with busy := true })

end Device

/-- Runs `k` begin/end cycles on a device; `none` as soon as one `begin()`
reports an error. -/
def beginEndCycles : Nat → BusRegistry → Device → Option (BusRegistry × Device)
  | 0, r, d => some (r, d)
  | k + 1, r, d =>
    match Device.begin r d with
    | (none, r1, d1) =>
      let (r2, d2) := Device.end_ r1 d1
      beginEndCycles k r2 d2
    | (some _, _, _) => none

end spi

/-! ## SPI device layer: transactions, configuration updates, results -/

namespace spi

namespace Result

/-- Modelled from the spec: default construction of `Result<T>` yields
`Err(NotInitialized)`, with an empty message. -/
def default (T : Type) : Result T := .failure SPIError.NOT_INITIALIZED ""

/-- Modelled from the spec: the boolean conversion of `Result<T>` mirrors
`ok()`. -/
def toBool {T : Type} (r : Result T) : Bool := r.ok

end Result

namespace Transaction

/-- `Transaction::isPending()`. -/
def isPending (t : Transaction) : Bool := decide (t.state = TransactionState.Pending)

/-- `Transaction::isDone()`: both terminal states, `Done` and `Cancelled`,
collapse to the single observable "done". -/
def isDone (t : Transaction) : Bool :=
  decide (t.state = TransactionState.Done ∨ t.state = TransactionState.Cancelled)

/-- `Transaction::getResult()`: the recorded result of the transfer. -/
def getResult (t : Transaction) : Option SPIError := t.result

/-- Modelled from the spec: `wait()` without a timeout blocks until the
transfer is `Done` or `Cancelled` and returns whether completion was observed.
A pending transfer is completed by the hardware (no error class of section 7
belongs to a transmission under way, so the recorded result holds no error)
and the device is idle afterwards; on a transaction already done it returns
at once. `d` is the device the transaction was issued on. -/
def wait (t : Transaction) (d : Device) : Bool × Transaction × Device :=
  match t.state with
  | .Pending => (true, { t with state := .Done, result := none }, { d with busy := false })
  | .Done => (true, t, d)
  | .Cancelled => (true, t, d)

/-- Modelled from the spec: `cancel()`, if the transaction is `Pending`,
transitions it to `Cancelled` and returns `true`, the device being not busy
afterwards; if already done it returns `false` and changes nothing. The
specification does not say what result a cancelled transfer records; the
record is left as it was. -/
def cancel (t : Transaction) (d : Device) : Bool × Transaction × Device :=
  match t.state with
  | .Pending => (true, { t with state := .Cancelled }, { d with busy := false })
  | .Done => (false, t, d)
  | .Cancelled => (false, t, d)

end Transaction

/-- Modelled from the spec: `setClockSpeed(hz)` updates the stored
configuration immediately and reports no error; readiness is untouched (the
new speed reaches the hardware on the next `begin()` cycle). The argument is a
u32. -/
def Device.setClockSpeed (d : Device) (hz : Nat) : Option SPIError × Device :=
  (none, { d with config := { d.config with clock_speed_hz := hz % 2 ^ 32 } })

end spi

/-! ## LPD8806 (chipsets.h, lines 383-446) -/

namespace LPD8806Controller

/-- The value of the expression in `LPD8806_ADJUST::adjust(u8 data)`,
`((data>>1) | 0x80) + ((data && (data<254)) & 0x01)`, as the `int` it is
computed in, before the conversion to the `u8` return type. -/
def adjustInt (data : Nat) : Nat :=
  ((data >>> 1) ||| 0x80) + ((if data ≠ 0 ∧ data < 254 then 1 else 0) &&& 0x01)

/-- `LPD8806_ADJUST::adjust(u8 data)`: the expression converted to `u8`. -/
def adjust (data : Nat) : Nat := adjustInt data % 256

/-- `LPD8806Controller::getPaddingByte`. -/
def getPaddingByte : Nat := 0x00

/-- `LPD8806Controller::getPaddingLEDFrame`: the static three-byte frame. -/
def getPaddingLEDFrame : List Nat := [0x80, 0x80, 0x80]

/-- `LPD8806Controller::getPaddingLEDFrameSize`. -/
def getPaddingLEDFrameSize : Nat := 3

/-- `LPD8806Controller::calculateBytes(size_t num_leds)` in `w`-bit `size_t`
arithmetic: `(num_leds * 3) + ((num_leds * 3 + 63) / 64)`. -/
def calculateBytes (w : Nat) (num_leds : Nat) : Nat :=
  addW w (mulW w num_leds 3) ((addW w (mulW w num_leds 3) 63) / 64)

end LPD8806Controller

/-! ## WS2801 (chipsets.h, lines 484-518) -/

namespace WS2801Controller

/-- `WS2801Controller::getPaddingByte`. -/
def getPaddingByte : Nat := 0x00

/-- `WS2801Controller::getPaddingLEDFrame`: the static three-byte frame. -/
def getPaddingLEDFrame : List Nat := [0x00, 0x00, 0x00]

/-- `WS2801Controller::getPaddingLEDFrameSize`. -/
def getPaddingLEDFrameSize : Nat := 3

/-- `WS2801Controller::calculateBytes(size_t num_leds)` in `w`-bit `size_t`
arithmetic: `num_leds * 3`. -/
def calculateBytes (w : Nat) (num_leds : Nat) : Nat := mulW w num_leds 3

end WS2801Controller

/-! ## P9813 (chipsets.h, lines 910-981) -/

/-- Bitwise complement `~x` of a non-negative `int` of `iw` bits, as the bit
pattern of the (negative) result. -/
def intNot (iw : Nat) (x : Nat) : Nat := 2 ^ iw - 1 - x

namespace P9813Controller

/-- `P9813Controller::writeBoundary`. -/
def writeBoundary (spi : SPIOutput) : SPIOutput := (spi.writeWord 0).writeWord 0

/-- The flag byte that `P9813Controller::writeLed` computes:
`0xC0 | ((~b & 0xC0) >> 2) | ((~g & 0xC0) >> 4) | ((~r & 0xC0) >> 6)`, the
operands being promoted to `int` (of `iw` bits) and the result stored in a
`u8`. -/
def topByte (iw : Nat) (r g b : Nat) : Nat :=
  (0xC0 ||| ((intNot iw b &&& 0xC0) >>> 2) ||| ((intNot iw g &&& 0xC0) >>> 4)
    ||| ((intNot iw r &&& 0xC0) >>> 6)) % 256

/-- `P9813Controller::writeLed(u8 r, u8 g, u8 b)`: flag byte, blue, green, red. -/
def writeLed (iw : Nat) (spi : SPIOutput) (r g b : Nat) : SPIOutput :=
  (((spi.writeByte (topByte iw r g b)).writeByte b).writeByte g).writeByte r

/-- `P9813Controller::getPaddingByte`. -/
def getPaddingByte : Nat := 0x00

/-- `P9813Controller::getPaddingLEDFrame`: the static four-byte frame. -/
def getPaddingLEDFrame : List Nat := [0xFF, 0x00, 0x00, 0x00]

/-- `P9813Controller::getPaddingLEDFrameSize`. -/
def getPaddingLEDFrameSize : Nat := 4

/-- `P9813Controller::calculateBytes(size_t num_leds)` in `w`-bit `size_t`
arithmetic: `4 + (num_leds * 4) + 4`. -/
def calculateBytes (w : Nat) (num_leds : Nat) : Nat :=
  addW w (addW w 4 (mulW w num_leds 4)) 4

end P9813Controller

/-! ## LPD8806 latch, P9813 and LPD6803 pixel output, APA102 brightness -/

/-- Modelled from the spec: `SPIOutput::writeBytesValueRaw(value, len)` (not
among the sources) clocks out `len` copies of the byte `value`; nothing for a
count that is not positive. -/
def SPIOutput.writeBytesValueRaw (spi : SPIOutput) (value : Nat) (len : Int) : SPIOutput :=
  { out := spi.out ++ List.replicate len.toNat (value % 256) }

/-- Reduction of an integer to an `iw`-bit two's-complement `int`: the value a
compiled `int` expression holds when the mathematical result does not fit
(the C standard leaves signed overflow undefined; this is what the targets
compute). -/
def wrapInt (iw : Nat) (x : Int) : Int := (x + 2 ^ (iw - 1)) % 2 ^ iw - 2 ^ (iw - 1)

/-- `LPD8806_ADJUST::postBlock(int len)`: writes `(len*3+63)>>6` zero bytes,
the count being computed in `int` of `iw` bits (`>>` on a negative `int` is the
arithmetic shift). -/
def LPD8806Controller.postBlock (iw : Nat) (len : Int) (spi : SPIOutput) : SPIOutput :=
  spi.writeBytesValueRaw 0 (Int.shiftRight (wrapInt iw (wrapInt iw (len * 3) + 63)) 6)

/-- `P9813Controller::showPixels`: a boundary, one `writeLed` per pixel, a
boundary. `pixels` lists the triples `(loadAndScale0, loadAndScale1,
loadAndScale2)` of the successive pixels. -/
def P9813Controller.showPixels (iw : Nat) (pixels : List (Nat × Nat × Nat))
    (spi : SPIOutput) : SPIOutput :=
  let spi1 := P9813Controller.writeBoundary spi
  let spi2 := pixels.foldl (fun s p => P9813Controller.writeLed iw s p.1 p.2.1 p.2.2) spi1
  P9813Controller.writeBoundary spi2

namespace LPD6803Controller

/-- `LPD6803Controller::startBoundary`. -/
def startBoundary (spi : SPIOutput) : SPIOutput :=
  (((spi.writeByte 0).writeByte 0).writeByte 0).writeByte 0

/-- `LPD6803Controller::endBoundary(int nLeds)`: the same do/while loop as in
the APA102 controller, over the bytes `0xFF, 0x00, 0x00, 0x00`. -/
def endBoundary (fuel : Nat) (nLeds : Int) (spi : SPIOutput) : Option SPIOutput :=
  APA102Controller.endBoundaryLoop 0xFF 0x00 0x00 0x00 fuel (Int.tdiv nLeds 32) spi

/-- The value of the u16 `command` when its high byte is written: `0x8000`,
then red and green OR-ed in. -/
def commandHigh (r g : Nat) : Nat :=
  let command := 0x8000
  let command := (command ||| ((r &&& 0xF8) <<< 7)) % 65536
  (command ||| ((g &&& 0xF8) <<< 2)) % 65536

/-- The final value of the u16 `command`, blue OR-ed in. -/
def commandFull (r g b : Nat) : Nat := (commandHigh r g ||| (b >>> 3)) % 65536

/-- The body of the pixel loop of `LPD6803Controller::showPixels` for the
channel values `r = loadAndScale0()`, `g = loadAndScale1()`,
`b = loadAndScale2()`: the high byte is written before blue is OR-ed in. -/
def writePixel (spi : SPIOutput) (r g b : Nat) : SPIOutput :=
  let spi1 := spi.writeByte ((commandHigh r g >>> 8) &&& 0xFF)
  spi1.writeByte (commandFull r g b &&& 0xFF)

/-- `LPD6803Controller::showPixels`. -/
def showPixels (fuel : Nat) (pixels : List (Nat × Nat × Nat)) (spi : SPIOutput) :
    Option SPIOutput :=
  let spi1 := startBoundary spi
  let spi2 := pixels.foldl (fun s p => writePixel s p.1 p.2.1 p.2.2) spi1
  endBoundary fuel (pixels.length : Int) spi2

end LPD6803Controller

namespace APA102Controller

/-- The u16 `brightness` of the `FASTLED_USE_GLOBAL_BRIGHTNESS == 1` branch of
`getGlobalBrightnessAndScalingFactors`:
`((((u16)FL_MAX(FL_MAX(s0, s1), s2) + 1) * maxBrightness - 1) >> 8) + 1`. -/
def globalBrightness (s0 s1 s2 : Nat) : Nat :=
  let maxBrightness := 0x1F
  (((((max (max s0 s1) s2) % 65536 + 1) * maxBrightness - 1) >>> 8) + 1) % 65536

/-- The value `(maxBrightness * s + (brightness >> 1)) / brightness` as the
`int` it is computed in, before it is stored back into the u8 channel. In C a
zero `brightness` would be a division by zero. -/
def rescaleInt (brightness s : Nat) : Nat := (0x1F * s + (brightness >>> 1)) / brightness

/-- `getGlobalBrightnessAndScalingFactors` without `FASTLED_HD_COLOR_MIXING`,
applied to the triple `(s0, s1, s2)` that `loadAndScaleRGB` yields;
`useGlobalBrightness` selects the `FASTLED_USE_GLOBAL_BRIGHTNESS == 1` branch.
Returns `(out_s0, out_s1, out_s2, out_brightness)`, each a u8. -/
def getGlobalBrightnessAndScalingFactors (useGlobalBrightness : Bool) (s0 s1 s2 : Nat) :
    Nat × Nat × Nat × Nat :=
  if useGlobalBrightness then
    let brightness := globalBrightness s0 s1 s2
    let t0 := rescaleInt brightness s0 % 256
    let t1 := rescaleInt brightness s1 % 256
    let t2 := rescaleInt brightness s2 % 256
    (t0, t1, t2, brightness % 256)
  else
    (s0, s1, s2, 0x1F)

/-- The local `Math::map(x, in_min, in_max, out_min, out_max)` of the
`FASTLED_HD_COLOR_MIXING` branch, on u16 values:
`(delta * rise) / run + out_min`. -/
def Math_map (x in_min in_max out_min out_max : Nat) : Nat :=
  let run := (in_max + 65536 - in_min) % 65536
  let rise := (out_max + 65536 - out_min) % 65536
  let delta := (x + 65536 - in_min) % 65536
  ((delta * rise) / run + out_min) % 65536

/-- The five-bit brightness of the `FASTLED_HD_COLOR_MIXING` branch of
`getGlobalBrightnessAndScalingFactors` for the 8-bit `brightness` that
`loadRGBScaleAndBrightness` yields: `Math::map(brightness, 0, 255, 0, 31)`,
raised to 1 when it is 0 for a non-zero input, then cast to u8. -/
def hdBrightness (brightness : Nat) : Nat :=
  let bri := Math_map brightness 0 255 0 31
  let bri := if bri = 0 ∧ brightness ≠ 0 then 1 else bri
  bri % 256

end APA102Controller

/-- The 16-bit LPD6803 word of a pixel in the words of the data sheet: a
constant 1 bit, then five bits each of red, green and blue,
`0x8000 | ((r >> 3) << 10) | ((g >> 3) << 5) | (b >> 3)`. -/
def LPD6803Controller.pixelWord (r g b : Nat) : Nat :=
  0x8000 ||| ((r >>> 3) <<< 10) ||| ((g >>> 3) <<< 5) ||| (b >>> 3)

/-- The pixel part of an LPD6803 stream as the data sheet describes it: for
each pixel in turn the high byte and then the low byte of its word. -/
def LPD6803Controller.pixelStream : List (Nat × Nat × Nat) → List Nat
  | [] => []
  | p :: rest =>
    [LPD6803Controller.pixelWord p.1 p.2.1 p.2.2 >>> 8,
      LPD6803Controller.pixelWord p.1 p.2.1 p.2.2 &&& 0xFF]
      ++ LPD6803Controller.pixelStream rest

/-- The bytes of `k` consecutive copies of a frame. -/
def repeatFrame (frame : List Nat) : Nat → List Nat
  | 0 => []
  | k + 1 => frame ++ repeatFrame frame k

/-! ## Arithmetic helpers -/

theorem wrap_of_lt {w x : Nat} (h : x < 2 ^ w) : wrap w x = x := by
  unfold wrap
  exact Nat.mod_eq_of_lt h

/-- Without overflow the `size_t` computation is the mathematical one. -/
theorem APA102_calculateBytes_exact {w n : Nat}
    (h : 4 + 4 * n + 4 * (n / 32 + 1) < 2 ^ w) :
    APA102Controller.calculateBytes w n = 4 + 4 * n + 4 * (n / 32 + 1) := by
  unfold APA102Controller.calculateBytes addW mulW
  have h1 : wrap w (n * 4) = n * 4 := wrap_of_lt (by omega)
  have h2 : wrap w (n / 32 + 1) = n / 32 + 1 := wrap_of_lt (by omega)
  rw [h1, h2]
  have h3 : wrap w (4 + n * 4) = 4 + n * 4 := wrap_of_lt (by omega)
  have h4 : wrap w (4 * (n / 32 + 1)) = 4 * (n / 32 + 1) := wrap_of_lt (by omega)
  rw [h3, h4]
  have h5 : wrap w (4 + n * 4 + 4 * (n / 32 + 1)) = 4 + n * 4 + 4 * (n / 32 + 1) :=
    wrap_of_lt (by omega)
  rw [h5]
  omega

/-- The exact wire length is monotone in the LED count, so absence of overflow
at the longer lane implies absence of overflow at the shorter. -/
theorem APA102_exact_mono {n1 n2 : Nat} (h : n1 ≤ n2) :
    4 + 4 * n1 + 4 * (n1 / 32 + 1) ≤ 4 + 4 * n2 + 4 * (n2 / 32 + 1) := by
  have : n1 / 32 ≤ n2 / 32 := Nat.div_le_div_right h
  omega

/-! ## Lengths of what the APA102 routines write -/

theorem writeByte_length (spi : SPIOutput) (b : Nat) :
    (spi.writeByte b).out.length = spi.out.length + 1 := by
  simp [SPIOutput.writeByte]

theorem writeWord_length (spi : SPIOutput) (v : Nat) :
    (spi.writeWord v).out.length = spi.out.length + 2 := by
  simp [SPIOutput.writeWord]

theorem startBoundary_length (sf : Nat) (spi : SPIOutput) :
    (APA102Controller.startBoundary sf spi).out.length = spi.out.length + 4 := by
  simp [APA102Controller.startBoundary, writeWord_length]

theorem writeLed_length (byteOnly : Bool) (spi : SPIOutput) (br b0 b1 b2 : Nat) :
    (APA102Controller.writeLed byteOnly spi br b0 b1 b2).out.length = spi.out.length + 4 := by
  cases byteOnly <;> simp [APA102Controller.writeLed, writeWord_length, writeByte_length]

theorem pixelLoop_length (byteOnly : Bool) (gb : Nat) (pixels : List (Nat × Nat × Nat)) :
    ∀ spi : SPIOutput,
      (pixels.foldl (fun s p => APA102Controller.writeLed byteOnly s gb p.1 p.2.1 p.2.2)
        spi).out.length = spi.out.length + 4 * pixels.length := by
  induction pixels with
  | nil => intro spi; simp
  | cons p rest ih =>
    intro spi
    rw [List.foldl_cons, ih, writeLed_length, List.length_cons]
    omega

/-- The end-frame loop started with `nDWords = k ≥ 0` returns as soon as the
fuel exceeds `k`, having written `4 * (k + 1)` bytes. -/
theorem endBoundaryLoop_length (b0 b1 b2 b3 : Nat) (k : Nat) :
    ∀ (fuel : Nat) (spi : SPIOutput), k + 1 ≤ fuel →
      Option.map (fun s => s.out.length)
        (APA102Controller.endBoundaryLoop b0 b1 b2 b3 fuel (k : Int) spi)
        = some (spi.out.length + 4 * (k + 1)) := by
  induction k with
  | zero =>
    intro fuel spi h
    obtain ⟨f, rfl⟩ : ∃ f, fuel = f + 1 := ⟨fuel - 1, by omega⟩
    simp [APA102Controller.endBoundaryLoop, writeByte_length]
  | succ k ih =>
    intro fuel spi h
    obtain ⟨f, rfl⟩ : ∃ f, fuel = f + 1 := ⟨fuel - 1, by omega⟩
    have hne : ((k + 1 : Nat) : Int) ≠ 0 := by omega
    have hk : ((k + 1 : Nat) : Int) - 1 = (k : Int) := by omega
    rw [APA102Controller.endBoundaryLoop]
    simp only [hne, ne_eq, not_false_eq_true, if_true, hk]
    rw [ih f _ (by omega)]
    simp only [writeByte_length]
    congr 1
    omega

theorem endBoundary_length (ef : Nat) (n fuel : Nat) (spi : SPIOutput)
    (h : n / 32 + 1 ≤ fuel) :
    Option.map (fun s => s.out.length)
      (APA102Controller.endBoundary ef fuel (n : Int) spi)
      = some (spi.out.length + 4 * (n / 32 + 1)) := by
  have hd : Int.tdiv (n : Int) 32 = ((n / 32 : Nat) : Int) := by
    rw [Int.tdiv_eq_ediv (by omega) (by omega)]
    omega
  unfold APA102Controller.endBoundary
  simp only [hd]
  exact endBoundaryLoop_length _ _ _ _ (n / 32) fuel spi h

/-- With enough fuel `showPixelsDefault` returns, and it has written
`4 + 4 * n + 4 * (n / 32 + 1)` bytes for `n` pixels. -/
theorem showPixelsDefault_length (byteOnly : Bool) (sf ef fuel gb : Nat)
    (pixels : List (Nat × Nat × Nat)) (spi : SPIOutput)
    (h : pixels.length / 32 + 1 ≤ fuel) :
    Option.map (fun s => s.out.length)
      (APA102Controller.showPixelsDefault byteOnly sf ef fuel gb pixels spi)
      = some (spi.out.length
          + (4 + 4 * pixels.length + 4 * (pixels.length / 32 + 1))) := by
  unfold APA102Controller.showPixelsDefault
  simp only []
  rw [endBoundary_length ef pixels.length fuel _ h, pixelLoop_length, startBoundary_length]
  congr 1
  omega

/-! ## Bus registry: lane counts -/

theorem lanesOn_empty (clock : Int) : spi.BusRegistry.empty.lanesOn clock = 0 := by
  simp [spi.BusRegistry.empty, spi.BusRegistry.lanesOn]

theorem lanesOn_cons (r : spi.BusRegistry) (c clock : Int) (pins : List Int) :
    ({ lanes := (c, pins) :: r.lanes } : spi.BusRegistry).lanesOn clock
      = r.lanesOn clock + (if c = clock then 1 else 0) := by
  simp [spi.BusRegistry.lanesOn, List.countP_cons]

theorem lanesOn_unregister_le (r : spi.BusRegistry) (c clock : Int) (pins : List Int) :
    (r.unregister c pins).lanesOn clock ≤ r.lanesOn clock := by
  unfold spi.BusRegistry.unregister spi.BusRegistry.lanesOn
  exact List.Sublist.countP_le _ (List.erase_sublist _ _)

/-- A registration on a line below capacity succeeds and adds one lane to it. -/
theorem register_of_free (r : spi.BusRegistry) (clock : Int) (pins : List Int)
    (h : r.lanesOn clock < spi.MAX_LANES_PER_CLOCK) :
    r.register clock pins = .ok { lanes := (clock, pins) :: r.lanes } := by
  unfold spi.BusRegistry.register
  rw [if_neg (by omega)]

/-- A registration on a line at capacity is rejected with `BUSY`. -/
theorem register_of_full (r : spi.BusRegistry) (clock : Int) (pins : List Int)
    (h : spi.MAX_LANES_PER_CLOCK ≤ r.lanesOn clock) :
    r.register clock pins = .error spi.SPIError.BUSY := by
  unfold spi.BusRegistry.register
  rw [if_pos h]

/-- The capacity bound on every clock line is preserved by each operation. -/
theorem step_preserves_capacity (r : spi.BusRegistry) (op : spi.RegistryOp)
    (h : ∀ clock, r.lanesOn clock ≤ spi.MAX_LANES_PER_CLOCK) :
    ∀ clock, (r.step op).lanesOn clock ≤ spi.MAX_LANES_PER_CLOCK := by
  intro clock
  cases op with
  | register c pins =>
    simp only [spi.BusRegistry.step]
    by_cases hfull : spi.MAX_LANES_PER_CLOCK ≤ r.lanesOn c
    · rw [register_of_full r c pins hfull]
      exact h clock
    · rw [register_of_free r c pins (by omega)]
      simp only []
      rw [lanesOn_cons]
      by_cases hc : c = clock
      · subst hc
        rw [if_pos rfl]
        omega
      · rw [if_neg hc]
        exact h clock
  | unregister c pins =>
    simp only [spi.BusRegistry.step]
    exact Nat.le_trans (lanesOn_unregister_le r c clock pins) (h clock)
  | reset =>
    simp [spi.BusRegistry.step, spi.BusRegistry.reset, spi.BusRegistry.lanesOn,
      spi.MAX_LANES_PER_CLOCK]

theorem run_preserves_capacity (ops : List spi.RegistryOp) :
    ∀ r : spi.BusRegistry, (∀ clock, r.lanesOn clock ≤ spi.MAX_LANES_PER_CLOCK) →
      ∀ clock, (r.run ops).lanesOn clock ≤ spi.MAX_LANES_PER_CLOCK := by
  induction ops with
  | nil => intro r h; exact h
  | cons op rest ih =>
    intro r h
    unfold spi.BusRegistry.run
    rw [List.foldl_cons]
    exact ih (r.step op) (step_preserves_capacity r op h)

/-- Registering lanes while the line has room succeeds for all of them. -/
theorem registerAll_of_room (clock : Int) (lanes : List (List Int)) :
    ∀ r : spi.BusRegistry, r.lanesOn clock + lanes.length ≤ spi.MAX_LANES_PER_CLOCK →
      ∃ r1, r.registerAll clock lanes = .ok r1 ∧
        r1.lanesOn clock = r.lanesOn clock + lanes.length := by
  induction lanes with
  | nil => intro r _; exact ⟨r, rfl, by simp⟩
  | cons pins rest ih =>
    intro r h
    rw [List.length_cons] at h
    unfold spi.BusRegistry.registerAll
    rw [register_of_free r clock pins (by omega)]
    simp only []
    have hl := lanesOn_cons r clock clock pins
    rw [if_pos rfl] at hl
    obtain ⟨r1, h1, h2⟩ := ih { lanes := (clock, pins) :: r.lanes } (by omega)
    exact ⟨r1, h1, by rw [h2, hl, List.length_cons]; omega⟩

/-! ## Device life cycle -/

/-- On a device that is not ready, with a valid mode and room on its clock
line, `begin()` registers the lane and makes the device ready. -/
theorem begin_of_valid (r : spi.BusRegistry) (d : spi.Device) (hnr : d.ready = false)
    (hmode : d.config.spi_mode ∈ [0, 1, 2, 3])
    (hcap : r.lanesOn d.config.clock_pin < spi.MAX_LANES_PER_CLOCK) :
    spi.Device.begin r d
      = (none, { lanes := (d.config.clock_pin, d.config.data_pins) :: r.lanes },
          { d with ready := true }) := by
  unfold spi.Device.begin
  rw [if_neg (by simp [hnr]), if_neg (fun hn => hn hmode),
    register_of_free r _ _ hcap]

/-- On a device that is not ready, an invalid mode makes `begin()` fail and
changes nothing. -/
theorem begin_of_invalid (r : spi.BusRegistry) (d : spi.Device) (hnr : d.ready = false)
    (hmode : d.config.spi_mode ∉ [0, 1, 2, 3]) :
    spi.Device.begin r d = (some spi.SPIError.INVALID_CONFIG, r, d) := by
  unfold spi.Device.begin
  rw [if_neg (by simp [hnr]), if_pos hmode]

/-- On a ready device `begin()` is a no-op success. -/
theorem begin_of_ready (r : spi.BusRegistry) (d : spi.Device) (hr : d.ready = true) :
    spi.Device.begin r d = (none, r, d) := by
  unfold spi.Device.begin
  rw [if_pos hr]

/-- A `begin()` that reports no error leaves the device ready. -/
theorem begin_success_ready (r : spi.BusRegistry) (d : spi.Device)
    (h : (spi.Device.begin r d).1 = none) : (spi.Device.begin r d).2.2.ready = true := by
  by_cases hr : d.ready = true
  · rw [begin_of_ready r d hr]; exact hr
  · have hnr : d.ready = false := by simpa using hr
    by_cases hmode : d.config.spi_mode ∈ [0, 1, 2, 3]
    · by_cases hcap : r.lanesOn d.config.clock_pin < spi.MAX_LANES_PER_CLOCK
      · rw [begin_of_valid r d hnr hmode hcap]
      · exfalso
        unfold spi.Device.begin at h
        rw [if_neg (by simp [hnr]), if_neg (fun hn => hn hmode),
          register_of_full r _ _ (by omega)] at h
        simp at h
    · rw [begin_of_invalid r d hnr hmode] at h
      simp at h

/-- After a successful `begin()` on a fresh device, `end()` gives back the
registry as it was and the fresh device. -/
theorem begin_end_roundtrip (r : spi.BusRegistry) (cfg : spi.Config)
    (hmode : cfg.spi_mode ∈ [0, 1, 2, 3])
    (hcap : r.lanesOn cfg.clock_pin < spi.MAX_LANES_PER_CLOCK) :
    spi.Device.end_ (spi.Device.begin r (spi.Device.new cfg)).2.1
        (spi.Device.begin r (spi.Device.new cfg)).2.2
      = (r, spi.Device.new cfg) := by
  rw [begin_of_valid r (spi.Device.new cfg) rfl hmode hcap]
  simp [spi.Device.end_, spi.Device.new, spi.BusRegistry.unregister]

theorem beginEndCycles_fresh (r : spi.BusRegistry) (cfg : spi.Config)
    (hmode : cfg.spi_mode ∈ [0, 1, 2, 3])
    (hcap : r.lanesOn cfg.clock_pin < spi.MAX_LANES_PER_CLOCK) (k : Nat) :
    spi.beginEndCycles k r (spi.Device.new cfg) = some (r, spi.Device.new cfg) := by
  induction k with
  | zero => rfl
  | succ k ih =>
    have hrt := begin_end_roundtrip r cfg hmode hcap
    rw [begin_of_valid r (spi.Device.new cfg) rfl hmode hcap] at hrt
    unfold spi.beginEndCycles
    rw [begin_of_valid r (spi.Device.new cfg) rfl hmode hcap]
    simp only [] at hrt ⊢
    rw [hrt]
    exact ih

/-! ## Asynchronous writes and transactions -/

/-- On a ready, idle device a write of non-null data of positive length whose
transaction can be allocated is accepted: a pending transaction is returned
and the device becomes busy. -/
theorem writeAsync_of_idle (alloc : Nat → Bool) (d : spi.Device) (bytes : List Nat)
    (length : Nat) (hr : d.ready = true) (hb : d.busy = false) (hl : 0 < length)
    (ha : alloc length = true) :
    d.writeAsync alloc (some bytes) length
      = (.success { state := spi.TransactionState.Pending, payload := bytes.take length,
                    result := none },
          { d with busy := true }) := by
  have hl0 : length ≠ 0 := by omega
  simp [spi.Device.writeAsync, hr, hb, hl0, ha]

/-- A transaction handed out by `writeAsync` is pending. -/
theorem writeAsync_value_pending (alloc : Nat → Bool) (d : spi.Device)
    (data : Option (List Nat)) (length : Nat) (t : spi.Transaction)
    (h : (d.writeAsync alloc data length).1.value = some t) :
    t.state = spi.TransactionState.Pending := by
  unfold spi.Device.writeAsync at h
  cases data with
  | none => simp [spi.Result.value] at h
  | some bytes =>
    simp only [] at h
    split_ifs at h <;> simp [spi.Result.value] at h
    rw [← h]

/-- Cancelling a transaction that is no longer pending returns `false` and
changes neither the transaction nor the device. -/
theorem cancel_of_not_pending (t : spi.Transaction) (d : spi.Device)
    (h : t.state ≠ spi.TransactionState.Pending) : t.cancel d = (false, t, d) := by
  unfold spi.Transaction.cancel
  cases hs : t.state with
  | Pending => exact absurd hs h
  | Done => rfl
  | Cancelled => rfl

/-- Cancelling a pending transaction. -/
theorem cancel_of_pending (t : spi.Transaction) (d : spi.Device)
    (h : t.state = spi.TransactionState.Pending) :
    t.cancel d
      = (true, { t with state := spi.TransactionState.Cancelled }, { d with busy := false }) := by
  unfold spi.Transaction.cancel
  rw [h]

/-- Waiting on a pending transaction. -/
theorem wait_of_pending (t : spi.Transaction) (d : spi.Device)
    (h : t.state = spi.TransactionState.Pending) :
    t.wait d
      = (true, { t with state := spi.TransactionState.Done, result := none },
          { d with busy := false }) := by
  unfold spi.Transaction.wait
  rw [h]

/-- Repeated cancellation of a transaction that is no longer pending is a
fixed point. -/
theorem cancel_iterate_fixed (t : spi.Transaction) (d : spi.Device)
    (h : t.state ≠ spi.TransactionState.Pending) (k : Nat) :
    Nat.iterate (fun s : spi.Transaction × spi.Device => (s.1.cancel s.2).2) k (t, d)
      = (t, d) := by
  induction k with
  | zero => rfl
  | succ k ih =>
    rw [Function.iterate_succ_apply]
    simp only []
    rw [cancel_of_not_pending t d h]
    exact ih

/-! ## Frame properties of `begin()` -/

/-- `begin()` never touches the stored configuration. -/
theorem begin_config (r : spi.BusRegistry) (d : spi.Device) :
    (spi.Device.begin r d).2.2.config = d.config := by
  by_cases hr : d.ready = true
  · rw [begin_of_ready r d hr]
  · have hnr : d.ready = false := by simpa using hr
    by_cases hmode : d.config.spi_mode ∈ [0, 1, 2, 3]
    · by_cases hcap : r.lanesOn d.config.clock_pin < spi.MAX_LANES_PER_CLOCK
      · rw [begin_of_valid r d hnr hmode hcap]
      · unfold spi.Device.begin
        rw [if_neg (by simp [hnr]), if_neg (fun hn => hn hmode),
          register_of_full r _ _ (by omega)]
    · rw [begin_of_invalid r d hnr hmode]

/-- `begin()` leaves the lane count of every other clock line as it was. -/
theorem begin_lanesOn_other (r : spi.BusRegistry) (d : spi.Device) (clock : Int)
    (h : clock ≠ d.config.clock_pin) :
    (spi.Device.begin r d).2.1.lanesOn clock = r.lanesOn clock := by
  by_cases hr : d.ready = true
  · rw [begin_of_ready r d hr]
  · have hnr : d.ready = false := by simpa using hr
    by_cases hmode : d.config.spi_mode ∈ [0, 1, 2, 3]
    · by_cases hcap : r.lanesOn d.config.clock_pin < spi.MAX_LANES_PER_CLOCK
      · rw [begin_of_valid r d hnr hmode hcap]
        simp only []
        rw [lanesOn_cons, if_neg (fun he => h he.symm)]
        rfl
      · unfold spi.Device.begin
        rw [if_neg (by simp [hnr]), if_neg (fun hn => hn hmode),
          register_of_full r _ _ (by omega)]
    · rw [begin_of_invalid r d hnr hmode]

/-! ## Wire lengths of the other clocked protocols, and the P9813 flag byte -/

/-- Without overflow the LPD8806 byte count is `3n + (3n + 63) / 64`. -/
theorem LPD8806_calculateBytes_exact {w n : Nat} (h : 3 * n + 63 + (3 * n + 63) / 64 < 2 ^ w) :
    LPD8806Controller.calculateBytes w n = 3 * n + (3 * n + 63) / 64 := by
  unfold LPD8806Controller.calculateBytes addW mulW
  have h1 : wrap w (n * 3) = n * 3 := wrap_of_lt (by omega)
  rw [h1]
  have h2 : wrap w (n * 3 + 63) = n * 3 + 63 := wrap_of_lt (by omega)
  rw [h2]
  have h3 : wrap w (n * 3 + (n * 3 + 63) / 64) = n * 3 + (n * 3 + 63) / 64 :=
    wrap_of_lt (by omega)
  rw [h3]
  omega

/-- Without overflow the WS2801 byte count is `3n`. -/
theorem WS2801_calculateBytes_exact {w n : Nat} (h : 3 * n < 2 ^ w) :
    WS2801Controller.calculateBytes w n = 3 * n := by
  unfold WS2801Controller.calculateBytes mulW
  rw [wrap_of_lt (by omega)]
  omega

/-- Without overflow the P9813 byte count is `4n + 8`. -/
theorem P9813_calculateBytes_exact {w n : Nat} (h : 4 * n + 8 < 2 ^ w) :
    P9813Controller.calculateBytes w n = 4 * n + 8 := by
  unfold P9813Controller.calculateBytes addW mulW
  have h1 : wrap w (n * 4) = n * 4 := wrap_of_lt (by omega)
  rw [h1]
  have h2 : wrap w (4 + n * 4) = 4 + n * 4 := wrap_of_lt (by omega)
  rw [h2]
  rw [wrap_of_lt (by omega)]
  omega

/-- Masking with `0xC0` only sees the low eight bits. -/
theorem and_C0_mod (x : Nat) : x &&& 0xC0 = (x % 256) &&& 0xC0 := by
  have h0 : (0xC0 : Nat) = 0xFF &&& 0xC0 := by decide
  have h2 : x &&& 0xFF = x % 256 := Nat.and_pow_two_sub_one_eq_mod x 8
  calc x &&& 0xC0 = x &&& (0xFF &&& 0xC0) := by rw [← h0]
    _ = (x &&& 0xFF) &&& 0xC0 := by rw [Nat.and_assoc]
    _ = (x % 256) &&& 0xC0 := by rw [h2]

/-- The masked complement of a byte does not depend on the width of `int`. -/
theorem intNot_and_C0 (iw x : Nat) (h8 : 8 ≤ iw) (hx : x < 256) :
    intNot iw x &&& 0xC0 = (255 - x) &&& 0xC0 := by
  rw [and_C0_mod]
  congr 1
  obtain ⟨k, rfl⟩ : ∃ k, iw = 8 + k := ⟨iw - 8, by omega⟩
  have hp : 2 ^ (8 + k) = 256 * 2 ^ k := by rw [pow_add]; norm_num
  have hk : 0 < 2 ^ k := Nat.pow_pos (by decide)
  unfold intNot
  rw [hp]
  omega

/-! ## LPD8806 latch bytes and the P9813 stream -/

/-- In range, the two's-complement reduction is the identity. -/
theorem wrapInt_of_range (iw : Nat) (x : Nat) (hiw : 1 ≤ iw) (h : x < 2 ^ (iw - 1)) :
    wrapInt iw (x : Int) = (x : Int) := by
  obtain ⟨k, rfl⟩ : ∃ k, iw = k + 1 := ⟨iw - 1, by omega⟩
  unfold wrapInt
  simp only [Nat.add_sub_cancel] at h ⊢
  have hp : (2 : Int) ^ (k + 1) = 2 * 2 ^ k := by ring
  have hx : (x : Int) < 2 ^ k := by exact_mod_cast h
  have hpos : (0 : Int) < 2 ^ k := by positivity
  rw [Int.emod_eq_of_lt (by omega) (by rw [hp]; omega)]
  omega

/-- For a non-negative LED count whose `3n + 63` fits the `int`, `postBlock`
appends `(3n + 63) / 64` zero bytes. -/
theorem postBlock_out (iw n : Nat) (spi : SPIOutput) (hint : 3 * n + 63 < 2 ^ (iw - 1)) :
    (LPD8806Controller.postBlock iw (n : Int) spi).out
      = spi.out ++ List.replicate ((3 * n + 63) / 64) 0 := by
  have hiw : 1 ≤ iw := by
    by_contra hc
    have h0 : iw = 0 := by omega
    subst h0
    simp at hint
  have hw1 : wrapInt iw ((n : Int) * 3) = ((n * 3 : Nat) : Int) := by
    have h := wrapInt_of_range iw (n * 3) hiw (by omega)
    rw [← h]
    push_cast
    rfl
  have hw2 : wrapInt iw (((n * 3 : Nat) : Int) + 63) = ((n * 3 + 63 : Nat) : Int) := by
    have h := wrapInt_of_range iw (n * 3 + 63) hiw (by omega)
    rw [← h]
    push_cast
    rfl
  have hs : Int.shiftRight (((n * 3 + 63 : Nat)) : Int) 6
      = (((3 * n + 63) / 64 : Nat) : Int) := by
    have h := Int.shiftRight_eq_div_pow (((n * 3 + 63 : Nat)) : Int) 6
    have h2 : Int.shiftRight (((n * 3 + 63 : Nat)) : Int) 6
        = (((n * 3 + 63 : Nat)) : Int) / ((2 ^ 6 : Nat) : Int) := h
    rw [h2]
    norm_num
    omega
  unfold LPD8806Controller.postBlock SPIOutput.writeBytesValueRaw
  rw [hw1, hw2, hs, Int.toNat_ofNat]

/-- Where `3n + 63` exceeds `INT_MAX` the count goes negative and no latch byte
is written: a 32-bit `int` at 715827862 LEDs, a 16-bit `int` at 15888. -/
theorem postBlock_int_overflow :
    Int.shiftRight (wrapInt 32 (wrapInt 32 (715827862 * 3) + 63)) 6 = -33554432 ∧
    (LPD8806Controller.postBlock 32 715827862 { out := [] }).out = [] ∧
    (LPD8806Controller.postBlock 16 15888 { out := [] }).out = [] := by
  decide

theorem writeBoundary_length (spi : SPIOutput) :
    (P9813Controller.writeBoundary spi).out.length = spi.out.length + 4 := by
  simp [P9813Controller.writeBoundary, writeWord_length]

theorem P9813_writeLed_out (iw : Nat) (spi : SPIOutput) (r g b : Nat) :
    (P9813Controller.writeLed iw spi r g b).out
      = spi.out ++ [P9813Controller.topByte iw r g b % 256, b % 256, g % 256, r % 256] := by
  simp [P9813Controller.writeLed, SPIOutput.writeByte]

theorem P9813_pixelLoop_length (iw : Nat) (pixels : List (Nat × Nat × Nat)) :
    ∀ spi : SPIOutput,
      (pixels.foldl (fun s p => P9813Controller.writeLed iw s p.1 p.2.1 p.2.2) spi).out.length
        = spi.out.length + 4 * pixels.length := by
  induction pixels with
  | nil => intro spi; simp
  | cons p rest ih =>
    intro spi
    rw [List.foldl_cons, ih, P9813_writeLed_out, List.length_cons]
    simp only [List.length_append, List.length_cons, List.length_nil]
    omega

/-- `P9813Controller::showPixels` writes `4n + 8` bytes for `n` pixels. -/
theorem P9813_showPixels_length (iw : Nat) (pixels : List (Nat × Nat × Nat))
    (spi : SPIOutput) :
    (P9813Controller.showPixels iw pixels spi).out.length
      = spi.out.length + (4 * pixels.length + 8) := by
  unfold P9813Controller.showPixels
  simp only []
  rw [writeBoundary_length, P9813_pixelLoop_length, writeBoundary_length]
  omega

/-! ## LPD6803 command word -/

set_option maxRecDepth 100000 in
/-- The masked and shifted channel values of the LPD6803 command word, for the
256 byte values. -/
theorem LPD6803_field : ∀ r : Nat, r < 256 →
    ((r &&& 0xF8) <<< 7 = 2 ^ 10 * (r / 8) ∧
      (r &&& 0xF8) <<< 2 = 2 ^ 5 * (r / 8) ∧
      (r >>> 3) <<< 10 = 2 ^ 10 * (r / 8) ∧
      (r >>> 3) <<< 5 = 2 ^ 5 * (r / 8) ∧
      r >>> 3 = r / 8) := by
  decide

theorem LPD6803_or_fields (a b c : Nat) (ha : a < 32) (hb : b < 32) (hc : c < 32) :
    0x8000 ||| 2 ^ 10 * a = 32768 + 1024 * a ∧
    (32768 + 1024 * a) ||| 2 ^ 5 * b = 32768 + 1024 * a + 32 * b ∧
    (32768 + 1024 * a + 32 * b) ||| c = 32768 + 1024 * a + 32 * b + c := by
  have h1 : 2 ^ 15 * 1 + 2 ^ 10 * a = 2 ^ 15 * 1 ||| 2 ^ 10 * a :=
    Nat.mul_add_lt_is_or (by omega) 1
  have h2 : 2 ^ 10 * (32 + a) + 2 ^ 5 * b = 2 ^ 10 * (32 + a) ||| 2 ^ 5 * b :=
    Nat.mul_add_lt_is_or (by omega) (32 + a)
  have h3 : 2 ^ 5 * (1024 + 32 * a + b) + c = 2 ^ 5 * (1024 + 32 * a + b) ||| c :=
    Nat.mul_add_lt_is_or (by omega) _
  have a1 : (0x8000 : Nat) = 2 ^ 15 * 1 := by norm_num
  have a2 : 32768 + 1024 * a = 2 ^ 10 * (32 + a) := by ring
  have a3 : 32768 + 1024 * a + 32 * b = 2 ^ 5 * (1024 + 32 * a + b) := by ring
  refine ⟨?_, ?_, ?_⟩
  · calc (0x8000 : Nat) ||| 2 ^ 10 * a = 2 ^ 15 * 1 ||| 2 ^ 10 * a := by rw [a1]
      _ = 2 ^ 15 * 1 + 2 ^ 10 * a := h1.symm
      _ = 32768 + 1024 * a := by ring
  · calc (32768 + 1024 * a) ||| 2 ^ 5 * b = 2 ^ 10 * (32 + a) ||| 2 ^ 5 * b := by rw [a2]
      _ = 2 ^ 10 * (32 + a) + 2 ^ 5 * b := h2.symm
      _ = 32768 + 1024 * a + 32 * b := by ring
  · calc (32768 + 1024 * a + 32 * b) ||| c = 2 ^ 5 * (1024 + 32 * a + b) ||| c := by rw [a3]
      _ = 2 ^ 5 * (1024 + 32 * a + b) + c := h3.symm
      _ = 32768 + 1024 * a + 32 * b + c := by ring

theorem LPD6803_commandHigh_eq (r g : Nat) (hr : r < 256) (hg : g < 256) :
    LPD6803Controller.commandHigh r g = 32768 + 1024 * (r / 8) + 32 * (g / 8) := by
  have ha : r / 8 < 32 := by omega
  have hb : g / 8 < 32 := by omega
  obtain ⟨e1, e2, _⟩ := LPD6803_or_fields (r / 8) (g / 8) 0 ha hb (by decide)
  have m1 : (32768 + 1024 * (r / 8)) % 65536 = 32768 + 1024 * (r / 8) :=
    Nat.mod_eq_of_lt (by omega)
  have m2 : (32768 + 1024 * (r / 8) + 32 * (g / 8)) % 65536
      = 32768 + 1024 * (r / 8) + 32 * (g / 8) := Nat.mod_eq_of_lt (by omega)
  unfold LPD6803Controller.commandHigh
  simp only []
  rw [(LPD6803_field r hr).1, (LPD6803_field g hg).2.1, e1, m1, e2, m2]

theorem LPD6803_commandFull_eq (r g b : Nat) (hr : r < 256) (hg : g < 256) (hb : b < 256) :
    LPD6803Controller.commandFull r g b = 32768 + 1024 * (r / 8) + 32 * (g / 8) + b / 8 := by
  have ha : r / 8 < 32 := by omega
  have hb1 : g / 8 < 32 := by omega
  have hc : b / 8 < 32 := by omega
  obtain ⟨_, _, e3⟩ := LPD6803_or_fields (r / 8) (g / 8) (b / 8) ha hb1 hc
  have m3 : (32768 + 1024 * (r / 8) + 32 * (g / 8) + b / 8) % 65536
      = 32768 + 1024 * (r / 8) + 32 * (g / 8) + b / 8 := Nat.mod_eq_of_lt (by omega)
  unfold LPD6803Controller.commandFull
  rw [LPD6803_commandHigh_eq r g hr hg, (LPD6803_field b hb).2.2.2.2, e3, m3]

theorem LPD6803_word_eq (r g b : Nat) (hr : r < 256) (hg : g < 256) (hb : b < 256) :
    0x8000 ||| ((r >>> 3) <<< 10) ||| ((g >>> 3) <<< 5) ||| (b >>> 3)
      = 32768 + 1024 * (r / 8) + 32 * (g / 8) + b / 8 := by
  have ha : r / 8 < 32 := by omega
  have hb1 : g / 8 < 32 := by omega
  have hc : b / 8 < 32 := by omega
  obtain ⟨e1, e2, e3⟩ := LPD6803_or_fields (r / 8) (g / 8) (b / 8) ha hb1 hc
  rw [(LPD6803_field r hr).2.2.1, (LPD6803_field g hg).2.2.2.1, (LPD6803_field b hb).2.2.2.2, e1, e2, e3]

/-- Masking with `0xFF` is reduction modulo 256. -/
theorem and_FF (x : Nat) : x &&& 0xFF = x % 256 := Nat.and_pow_two_sub_one_eq_mod x 8

/-! ## APA102 brightness -/

/-- The global brightness as a plain quotient, and its range. -/
theorem globalBrightness_eq (s0 s1 s2 : Nat) (h0 : s0 < 256) (h1 : s1 < 256)
    (h2 : s2 < 256) :
    APA102Controller.globalBrightness s0 s1 s2
      = ((max (max s0 s1) s2 + 1) * 31 - 1) / 256 + 1 := by
  have hm : max (max s0 s1) s2 < 256 := by
    simp only [max_lt_iff]
    exact ⟨⟨h0, h1⟩, h2⟩
  unfold APA102Controller.globalBrightness
  simp only []
  rw [Nat.mod_eq_of_lt (by omega : max (max s0 s1) s2 < 65536), Nat.shiftRight_eq_div_pow]
  have hq : ((max (max s0 s1) s2 + 1) * 31 - 1) / 2 ^ 8 < 31 := by
    norm_num
    omega
  norm_num at hq ⊢
  omega

/-- A channel not above the maximum is rescaled to at most 255. -/
theorem rescaleInt_le (m s : Nat) (hm : m < 256) (hs : s ≤ m) :
    APA102Controller.rescaleInt (((m + 1) * 31 - 1) / 256 + 1) s ≤ 255 := by
  unfold APA102Controller.rescaleInt
  rw [Nat.shiftRight_eq_div_pow]
  have hb : 0 < ((m + 1) * 31 - 1) / 256 + 1 := by omega
  have hlt : (0x1F * s + (((m + 1) * 31 - 1) / 256 + 1) / 2 ^ 1)
      / (((m + 1) * 31 - 1) / 256 + 1) < 256 := by
    rw [Nat.div_lt_iff_lt_mul hb]
    norm_num
    omega
  omega

set_option maxRecDepth 100000 in
/-- The five-bit HD brightness over the 256 input values: its range, its only
zero, and one step of monotonicity. -/
theorem hdBrightness_table : ∀ x : Nat, x < 256 →
    (APA102Controller.hdBrightness x ≤ 31 ∧
      (APA102Controller.hdBrightness x = 0 ↔ x = 0) ∧
      (x < 255 → APA102Controller.hdBrightness x ≤ APA102Controller.hdBrightness (x + 1))) := by
  decide

/-- The five-bit HD brightness is non-decreasing on the bytes. -/
theorem hdBrightness_mono (x y : Nat) (hxy : x ≤ y) (hy : y < 256) :
    APA102Controller.hdBrightness x ≤ APA102Controller.hdBrightness y := by
  induction y, hxy using Nat.le_induction with
  | base => exact Nat.le_refl _
  | succ k hk ih =>
    have hstep := (hdBrightness_table k (by omega)).2.2 (by omega)
    exact Nat.le_trans (ih (by omega)) hstep

/-! ## P9813 flag byte and APA102 end frame -/

set_option maxRecDepth 100000 in
/-- The three shifted complements of the top two bits of a byte. -/
theorem P9813_field : ∀ x : Nat, x < 256 →
    (((255 - x) &&& 0xC0) >>> 2 = 16 * (3 - x / 64) ∧
      ((255 - x) &&& 0xC0) >>> 4 = 4 * (3 - x / 64) ∧
      ((255 - x) &&& 0xC0) >>> 6 = 3 - x / 64 ∧
      x >>> 6 = x / 64) := by
  decide

/-- The flag byte as a function of the three two-bit fields. -/
theorem P9813_pack : ∀ i : Nat, i < 4 → ∀ j : Nat, j < 4 → ∀ k : Nat, k < 4 →
    ((0xC0 ||| 16 * (3 - i) ||| 4 * (3 - j) ||| (3 - k)) % 256
        = 0xFF - ((i <<< 4) ||| (j <<< 2) ||| k) ∧
      ((i <<< 4) ||| (j <<< 2) ||| k) ≤ 0x3F) := by
  decide

/-- The flag byte of `writeLed` in closed form. -/
theorem P9813_topByte_eq (iw r g b : Nat) (h8 : 8 ≤ iw) (hr : r < 256) (hg : g < 256)
    (hb : b < 256) :
    P9813Controller.topByte iw r g b
        = 0xFF - (((b >>> 6) <<< 4) ||| ((g >>> 6) <<< 2) ||| (r >>> 6)) ∧
      (((b >>> 6) <<< 4) ||| ((g >>> 6) <<< 2) ||| (r >>> 6)) ≤ 0x3F := by
  have fb := P9813_field b hb
  have fg := P9813_field g hg
  have fr := P9813_field r hr
  have hp := P9813_pack (b / 64) (by omega) (g / 64) (by omega) (r / 64) (by omega)
  unfold P9813Controller.topByte
  rw [intNot_and_C0 iw b h8 hb, intNot_and_C0 iw g h8 hg, intNot_and_C0 iw r h8 hr,
    fb.1, fg.2.1, fr.2.2.1, fb.2.2.2, fg.2.2.2, fr.2.2.2]
  exact hp

/-- The end-frame loop is still running when the fuel does not exceed the
initial `nDWords`. -/
theorem endBoundaryLoop_none (b0 b1 b2 b3 : Nat) (k : Nat) :
    ∀ (fuel : Nat) (spi : SPIOutput), fuel ≤ k →
      APA102Controller.endBoundaryLoop b0 b1 b2 b3 fuel (k : Int) spi = none := by
  induction k with
  | zero =>
    intro fuel spi h
    have h0 : fuel = 0 := by omega
    subst h0
    rfl
  | succ k ih =>
    intro fuel spi h
    cases fuel with
    | zero => rfl
    | succ f =>
      have hne : ((k + 1 : Nat) : Int) ≠ 0 := by omega
      have hk : ((k + 1 : Nat) : Int) - 1 = (k : Int) := by omega
      rw [APA102Controller.endBoundaryLoop]
      simp only [hne, ne_eq, not_false_eq_true, if_true, hk]
      exact ih f _ (by omega)

/-- With enough fuel the end-frame loop started at `nDWords = k` returns having
appended `k + 1` copies of the four bytes. -/
theorem endBoundaryLoop_out (b0 b1 b2 b3 : Nat) (k : Nat) :
    ∀ (fuel : Nat) (spi : SPIOutput), k + 1 ≤ fuel →
      APA102Controller.endBoundaryLoop b0 b1 b2 b3 fuel (k : Int) spi
        = some { out := spi.out
                  ++ repeatFrame [b0 % 256, b1 % 256, b2 % 256, b3 % 256] (k + 1) } := by
  induction k with
  | zero =>
    intro fuel spi h
    obtain ⟨f, rfl⟩ : ∃ f, fuel = f + 1 := ⟨fuel - 1, by omega⟩
    simp [APA102Controller.endBoundaryLoop, SPIOutput.writeByte, repeatFrame]
  | succ k ih =>
    intro fuel spi h
    obtain ⟨f, rfl⟩ : ∃ f, fuel = f + 1 := ⟨fuel - 1, by omega⟩
    have hne : ((k + 1 : Nat) : Int) ≠ 0 := by omega
    have hk : ((k + 1 : Nat) : Int) - 1 = (k : Int) := by omega
    rw [APA102Controller.endBoundaryLoop]
    simp only [hne, ne_eq, not_false_eq_true, if_true, hk]
    rw [ih f _ (by omega)]
    simp [SPIOutput.writeByte, repeatFrame]

theorem repeatFrame_length (frame : List Nat) (k : Nat) :
    (repeatFrame frame k).length = frame.length * k := by
  induction k with
  | zero => rfl
  | succ k ih =>
    rw [repeatFrame, List.length_append, ih]
    ring

theorem tdiv_32 (n : Nat) : Int.tdiv (n : Int) 32 = ((n / 32 : Nat) : Int) := by
  rw [Int.tdiv_eq_ediv (by omega) (by omega)]
  omega

/-! ## LPD6803 pixel stream -/

/-- The two bytes the loop body writes for a pixel of 8-bit channels are the
high and the low byte of the pixel's word. -/
theorem LPD6803_writePixel_out (spi : SPIOutput) (r g b : Nat)
    (hr : r < 256) (hg : g < 256) (hb : b < 256) :
    (LPD6803Controller.writePixel spi r g b).out
      = spi.out ++ [LPD6803Controller.pixelWord r g b >>> 8,
          LPD6803Controller.pixelWord r g b &&& 0xFF] := by
  have hw := LPD6803_word_eq r g b hr hg hb
  have hh := LPD6803_commandHigh_eq r g hr hg
  have hf := LPD6803_commandFull_eq r g b hr hg hb
  have s8 : ∀ x : Nat, x >>> 8 = x / 256 := fun x => by
    rw [Nat.shiftRight_eq_div_pow]
  unfold LPD6803Controller.writePixel SPIOutput.writeByte LPD6803Controller.pixelWord
  simp only [List.append_assoc, List.singleton_append]
  rw [hw, hh, hf, s8, s8]
  simp only [and_FF]
  congr 2
  · omega
  · congr 1
    omega

theorem LPD6803_pixelStream_append (xs ys : List (Nat × Nat × Nat)) :
    LPD6803Controller.pixelStream (xs ++ ys)
      = LPD6803Controller.pixelStream xs ++ LPD6803Controller.pixelStream ys := by
  induction xs with
  | nil => rfl
  | cons p rest ih =>
    have hc : p :: rest ++ ys = p :: (rest ++ ys) := rfl
    rw [hc, LPD6803Controller.pixelStream, ih, LPD6803Controller.pixelStream]
    simp only [List.append_assoc]

theorem LPD6803_pixelStream_length (xs : List (Nat × Nat × Nat)) :
    (LPD6803Controller.pixelStream xs).length = 2 * xs.length := by
  induction xs with
  | nil => rfl
  | cons p rest ih =>
    simp only [LPD6803Controller.pixelStream, List.length_append, List.length_cons,
      List.length_nil, ih]
    omega

/-- The pixel loop of `showPixels` appends the pixel stream. -/
theorem LPD6803_pixelLoop_out (pixels : List (Nat × Nat × Nat)) :
    (∀ p ∈ pixels, p.1 < 256 ∧ p.2.1 < 256 ∧ p.2.2 < 256) →
    ∀ spi : SPIOutput,
      (pixels.foldl (fun s p => LPD6803Controller.writePixel s p.1 p.2.1 p.2.2) spi).out
        = spi.out ++ LPD6803Controller.pixelStream pixels := by
  induction pixels with
  | nil => intro _ spi; simp [LPD6803Controller.pixelStream]
  | cons p rest ih =>
    intro hbytes spi
    have hp := hbytes p (List.mem_cons_self _ _)
    have hrest : ∀ q ∈ rest, q.1 < 256 ∧ q.2.1 < 256 ∧ q.2.2 < 256 :=
      fun q hq => hbytes q (List.mem_cons_of_mem _ hq)
    rw [List.foldl_cons, ih hrest, LPD6803_writePixel_out spi p.1 p.2.1 p.2.2 hp.1 hp.2.1 hp.2.2]
    simp only [LPD6803Controller.pixelStream, List.append_assoc]

/-- With enough fuel `LPD6803Controller::showPixels` returns, and what it has
written is the start boundary, the pixel stream and the end frames. -/
theorem LPD6803_showPixels_out (fuel : Nat) (pixels : List (Nat × Nat × Nat))
    (spi : SPIOutput)
    (hbytes : ∀ p ∈ pixels, p.1 < 256 ∧ p.2.1 < 256 ∧ p.2.2 < 256)
    (hfuel : pixels.length / 32 + 1 ≤ fuel) :
    LPD6803Controller.showPixels fuel pixels spi
      = some { out := spi.out ++ [0x00, 0x00, 0x00, 0x00]
                ++ LPD6803Controller.pixelStream pixels
                ++ repeatFrame [0xFF, 0x00, 0x00, 0x00] (pixels.length / 32 + 1) } := by
  have hstart : (LPD6803Controller.startBoundary spi).out = spi.out ++ [0, 0, 0, 0] := by
    simp [LPD6803Controller.startBoundary, SPIOutput.writeByte]
  unfold LPD6803Controller.showPixels LPD6803Controller.endBoundary
  simp only [tdiv_32]
  rw [endBoundaryLoop_out _ _ _ _ (pixels.length / 32) fuel _ hfuel,
    LPD6803_pixelLoop_out pixels hbytes, hstart]

/-- While the fuel does not exceed `n / 32` the end-frame loop of
`showPixels` is still running. -/
theorem LPD6803_showPixels_none (fuel : Nat) (pixels : List (Nat × Nat × Nat))
    (spi : SPIOutput) (hfuel : fuel ≤ pixels.length / 32) :
    LPD6803Controller.showPixels fuel pixels spi = none := by
  unfold LPD6803Controller.showPixels LPD6803Controller.endBoundary
  simp only [tdiv_32]
  exact endBoundaryLoop_none _ _ _ _ (pixels.length / 32) fuel _ hfuel

/-! ## LPD8806 channel adjustment -/

set_option maxRecDepth 100000 in
/-- Among the 256 byte values only 0 is adjusted to `0x80`. -/
theorem LPD8806_adjust_black_iff : ∀ d : Nat, d < 256 →
    (LPD8806Controller.adjust d = 0x80 ↔ d = 0) := by
  decide

set_option maxRecDepth 100000 in
/-- Over the 256 byte values the untruncated adjustment stays within one byte
and has its high bit set. -/
theorem LPD8806_adjust_range : ∀ d : Nat, d < 256 →
    (0x80 ≤ LPD8806Controller.adjustInt d ∧
      LPD8806Controller.adjustInt d ≤ 0xFF ∧
      LPD8806Controller.adjust d = LPD8806Controller.adjustInt d ∧
      LPD8806Controller.adjust d &&& 0x80 = 0x80) := by
  decide

/-! ## Claims -/

/-- C1: for every pixel count `n` whose byte count does not overflow the
`w`-bit `size_t`, `APA102Controller::calculateBytes(n)` equals
`4 + 4*n + 4*(floor(n/32) + 1)`. -/
theorem C1_calculateBytes_formula (w n : Nat)
    (h : 4 + 4 * n + 4 * (n / 32 + 1) < 2 ^ w) :
    APA102Controller.calculateBytes w n = 4 + 4 * n + 4 * (n / 32 + 1) :=
  APA102_calculateBytes_exact h

theorem C1_calculateBytes_formula_witness :
    4 + 4 * 100 + 4 * (100 / 32 + 1) < 2 ^ 16 ∧
    APA102Controller.calculateBytes 16 100 = 4 + 4 * 100 + 4 * (100 / 32 + 1) :=
  ⟨by decide, C1_calculateBytes_formula 16 100 (by decide)⟩

/-- C2, as stated, fails: with a 16-bit `size_t` the lane lengths 0 < 15888
have the same `calculateBytes` (the longer one wraps around to 8), and with a
64-bit `size_t` so have 0 < 4471937957262921604; the gap is 0, not a positive
multiple of the frame size. -/
theorem C2_gap_counterexample :
    ((0 : Nat) < 15888 ∧ 15888 < 2 ^ 16 ∧
      APA102Controller.calculateBytes 16 15888 = 8 ∧
      APA102Controller.calculateBytes 16 0 = 8 ∧
      ¬ (0 < APA102Controller.calculateBytes 16 15888
            - APA102Controller.calculateBytes 16 0)) ∧
    ((0 : Nat) < 4471937957262921604 ∧ 4471937957262921604 < 2 ^ 64 ∧
      APA102Controller.calculateBytes 64 4471937957262921604 = 8 ∧
      APA102Controller.calculateBytes 64 0 = 8 ∧
      ¬ (0 < APA102Controller.calculateBytes 64 4471937957262921604
            - APA102Controller.calculateBytes 64 0)) := by
  decide

/-- C2, amended: for every pair of APA102 lane lengths `n1 < n2` such that the
byte count of the longer lane does not overflow `size_t`, the wire-length gap
`calculateBytes(n2) - calculateBytes(n1)` is a positive whole multiple of
`getPaddingLEDFrameSize()`: adding `k > 0` whole inert frames to the shorter
lane reaches the longer lane's wire length exactly. -/
theorem C2_gap_whole_frames (w n1 n2 : Nat) (hlt : n1 < n2)
    (h : 4 + 4 * n2 + 4 * (n2 / 32 + 1) < 2 ^ w) :
    APA102Controller.getPaddingLEDFrameSize = 4 ∧
    APA102Controller.calculateBytes w n1 < APA102Controller.calculateBytes w n2 ∧
    APA102Controller.getPaddingLEDFrameSize ∣
      (APA102Controller.calculateBytes w n2 - APA102Controller.calculateBytes w n1) ∧
    ∃ k, 0 < k ∧
      APA102Controller.calculateBytes w n1 + k * APA102Controller.getPaddingLEDFrameSize
        = APA102Controller.calculateBytes w n2 := by
  have hmono := APA102_exact_mono (Nat.le_of_lt hlt)
  have hdiv : n1 / 32 ≤ n2 / 32 := Nat.div_le_div_right (Nat.le_of_lt hlt)
  rw [APA102_calculateBytes_exact h, APA102_calculateBytes_exact (by omega)]
  have hsz : APA102Controller.getPaddingLEDFrameSize = 4 := rfl
  rw [hsz]
  refine ⟨rfl, by omega, ?_, ?_⟩
  · exact ⟨(n2 - n1) + (n2 / 32 - n1 / 32), by omega⟩
  · exact ⟨(n2 - n1) + (n2 / 32 - n1 / 32), by omega, by omega⟩

theorem C2_gap_whole_frames_witness :
    APA102Controller.getPaddingLEDFrameSize = 4 ∧
    APA102Controller.calculateBytes 32 30 < APA102Controller.calculateBytes 32 100 ∧
    APA102Controller.getPaddingLEDFrameSize ∣
      (APA102Controller.calculateBytes 32 100 - APA102Controller.calculateBytes 32 30) ∧
    ∃ k, 0 < k ∧
      APA102Controller.calculateBytes 32 30 + k * APA102Controller.getPaddingLEDFrameSize
        = APA102Controller.calculateBytes 32 100 :=
  C2_gap_whole_frames 32 30 100 (by decide) (by decide)

/-- C3, as stated, fails where `calculateBytes` overflows: with a 16-bit
`size_t` (AVR) a strip of 16384 pixels makes `showPixelsDefault` write 67592
bytes while `calculateBytes(16384)` is 2056; with a 32-bit `size_t` a strip of
2^30 pixels gets 4429185032 bytes written while `calculateBytes` is 134217736. -/
theorem C3_stream_length_counterexample :
    (Option.map (fun s => s.out.length)
        (APA102Controller.showPixelsDefault false 0 0xFF000000 513 31
          (List.replicate 16384 (0, 0, 0)) { out := [] }) = some 67592 ∧
      APA102Controller.calculateBytes 16 16384 = 2056 ∧ (67592 : Nat) ≠ 2056) ∧
    (Option.map (fun s => s.out.length)
        (APA102Controller.showPixelsDefault false 0 0xFF000000 (2 ^ 25 + 1) 31
          (List.replicate (2 ^ 30) (0, 0, 0)) { out := [] }) = some 4429185032 ∧
      APA102Controller.calculateBytes 32 (2 ^ 30) = 134217736 ∧
      (4429185032 : Nat) ≠ 134217736) := by
  refine ⟨⟨?_, by decide, by decide⟩, ⟨?_, by decide, by decide⟩⟩
  · rw [showPixelsDefault_length _ _ _ _ _ _ _ (by rw [List.length_replicate])]
    rw [List.length_replicate]
    norm_num
  · rw [showPixelsDefault_length _ _ _ _ _ _ _ (by rw [List.length_replicate]; norm_num)]
    rw [List.length_replicate]
    norm_num

/-- C3, amended: for every pixel count `n >= 0` whose byte count does not
overflow `size_t`, `showPixelsDefault` returns (the end-frame loop terminates
within `n / 32 + 1` iterations) and the byte stream it writes (startBoundary,
one writeLed frame per pixel, endBoundary(n)), counting each writeWord as two
bytes, has length exactly `calculateBytes(n)`. -/
theorem C3_stream_length (w : Nat) (byteOnly : Bool) (START_FRAME END_FRAME : Nat)
    (global_brightness : Nat) (pixels : List (Nat × Nat × Nat)) (spi : SPIOutput)
    (fuel : Nat) (hfuel : pixels.length / 32 + 1 ≤ fuel)
    (h : 4 + 4 * pixels.length + 4 * (pixels.length / 32 + 1) < 2 ^ w) :
    ∃ spi1 : SPIOutput,
      APA102Controller.showPixelsDefault byteOnly START_FRAME END_FRAME fuel
        global_brightness pixels spi = some spi1 ∧
      spi1.out.length
        = spi.out.length + APA102Controller.calculateBytes w pixels.length := by
  have hlen := showPixelsDefault_length byteOnly START_FRAME END_FRAME fuel
    global_brightness pixels spi hfuel
  rw [APA102_calculateBytes_exact h]
  cases hres : APA102Controller.showPixelsDefault byteOnly START_FRAME END_FRAME fuel
      global_brightness pixels spi with
  | none => rw [hres] at hlen; simp at hlen
  | some spi1 =>
    rw [hres] at hlen
    simp only [Option.map_some', Option.some.injEq] at hlen
    exact ⟨spi1, rfl, hlen⟩

theorem C3_stream_length_witness :
    ∃ spi1 : SPIOutput,
      APA102Controller.showPixelsDefault false 0 0xFF000000 2 31
        [(1, 2, 3), (4, 5, 6)] { out := [] } = some spi1 ∧
      spi1.out.length
        = ({ out := [] } : SPIOutput).out.length
          + APA102Controller.calculateBytes 16 [(1, 2, 3), (4, 5, 6)].length :=
  C3_stream_length 16 false 0 0xFF000000 31 [(1, 2, 3), (4, 5, 6)] { out := [] } 2
    (by decide) (by decide)

/-- C4: starting from an empty registry, on every clock line eight lanes can
be registered one after the other, after which a ninth registration on that
line fails with the capacity error `BUSY`; in every registry state reached
from the empty one no clock line hosts more than `MAX_LANES_PER_CLOCK` (8)
lanes, and in every such state with eight lanes on the line a further
registration on it fails with `BUSY`. -/
theorem C4_lane_capacity (clock : Int) (lanes : List (List Int)) (h8 : lanes.length = 8)
    (pins9 : List Int) (ops : List spi.RegistryOp) :
    spi.MAX_LANES_PER_CLOCK = 8 ∧
    (∃ r8, spi.BusRegistry.empty.registerAll clock lanes = .ok r8 ∧
      r8.lanesOn clock = 8 ∧
      r8.register clock pins9 = .error spi.SPIError.BUSY) ∧
    (spi.BusRegistry.empty.run ops).lanesOn clock ≤ spi.MAX_LANES_PER_CLOCK ∧
    ((spi.BusRegistry.empty.run ops).lanesOn clock = 8 →
      (spi.BusRegistry.empty.run ops).register clock pins9 = .error spi.SPIError.BUSY) := by
  refine ⟨rfl, ?_, ?_, ?_⟩
  · obtain ⟨r8, h1, h2⟩ := registerAll_of_room clock lanes spi.BusRegistry.empty
      (by rw [lanesOn_empty, h8]; decide)
    rw [lanesOn_empty, h8] at h2
    exact ⟨r8, h1, by omega, register_of_full r8 clock pins9 (by rw [h2]; decide)⟩
  · exact run_preserves_capacity ops spi.BusRegistry.empty
      (fun c => by rw [lanesOn_empty]; exact Nat.zero_le _) clock
  · intro hfull
    exact register_of_full _ clock pins9 (by rw [hfull]; decide)

theorem C4_lane_capacity_witness :
    spi.MAX_LANES_PER_CLOCK = 8 ∧
    (∃ r8, spi.BusRegistry.empty.registerAll 18
        [[23], [23], [23], [23], [23], [23], [23], [23]] = .ok r8 ∧
      r8.lanesOn 18 = 8 ∧
      r8.register 18 [23] = .error spi.SPIError.BUSY) ∧
    (spi.BusRegistry.empty.run
        [spi.RegistryOp.register 18 [23], spi.RegistryOp.reset]).lanesOn 18
      ≤ spi.MAX_LANES_PER_CLOCK ∧
    ((spi.BusRegistry.empty.run
        [spi.RegistryOp.register 18 [23], spi.RegistryOp.reset]).lanesOn 18 = 8 →
      (spi.BusRegistry.empty.run
        [spi.RegistryOp.register 18 [23], spi.RegistryOp.reset]).register 18 [23]
        = .error spi.SPIError.BUSY) :=
  C4_lane_capacity 18 [[23], [23], [23], [23], [23], [23], [23], [23]] (by decide) [23]
    [spi.RegistryOp.register 18 [23], spi.RegistryOp.reset]

/-- C5: for every Config on a clock line with free capacity, `begin()` on the
device constructed from it returns an error if and only if `spi_mode` is
outside 0..3; when it returns an error the device remains not ready, and when
`spi_mode` is within 0..3 it returns no error and the device is ready. -/
theorem C5_begin_validates_mode (r : spi.BusRegistry) (cfg : spi.Config)
    (hcap : r.lanesOn cfg.clock_pin < spi.MAX_LANES_PER_CLOCK) :
    ((spi.Device.begin r (spi.Device.new cfg)).1.isSome = true
      ↔ cfg.spi_mode ∉ [0, 1, 2, 3]) ∧
    ((spi.Device.begin r (spi.Device.new cfg)).1.isSome = true →
      (spi.Device.begin r (spi.Device.new cfg)).2.2.isReady = false) ∧
    (cfg.spi_mode ∈ [0, 1, 2, 3] →
      (spi.Device.begin r (spi.Device.new cfg)).1 = none ∧
      (spi.Device.begin r (spi.Device.new cfg)).2.2.isReady = true) := by
  by_cases hmode : cfg.spi_mode ∈ [0, 1, 2, 3]
  · rw [begin_of_valid r (spi.Device.new cfg) rfl hmode hcap]
    refine ⟨?_, ?_, ?_⟩
    · constructor
      · intro h; simp at h
      · intro h; exact absurd hmode h
    · intro h; simp at h
    · intro _; exact ⟨rfl, rfl⟩
  · rw [begin_of_invalid r (spi.Device.new cfg) rfl hmode]
    refine ⟨?_, ?_, ?_⟩
    · constructor
      · intro _; exact hmode
      · intro _; rfl
    · intro _; rfl
    · intro h; exact absurd h hmode

theorem C5_begin_validates_mode_witness :
    ((spi.Device.begin spi.BusRegistry.empty
        (spi.Device.new { spi.Config.ofPins 18 19 with spi_mode := 4 })).1.isSome = true
      ↔ ({ spi.Config.ofPins 18 19 with spi_mode := 4 } : spi.Config).spi_mode
          ∉ [0, 1, 2, 3]) ∧
    ((spi.Device.begin spi.BusRegistry.empty
        (spi.Device.new { spi.Config.ofPins 18 19 with spi_mode := 4 })).1.isSome = true →
      (spi.Device.begin spi.BusRegistry.empty
        (spi.Device.new { spi.Config.ofPins 18 19 with spi_mode := 4 })).2.2.isReady
        = false) ∧
    (({ spi.Config.ofPins 18 19 with spi_mode := 4 } : spi.Config).spi_mode
        ∈ [0, 1, 2, 3] →
      (spi.Device.begin spi.BusRegistry.empty
        (spi.Device.new { spi.Config.ofPins 18 19 with spi_mode := 4 })).1 = none ∧
      (spi.Device.begin spi.BusRegistry.empty
        (spi.Device.new { spi.Config.ofPins 18 19 with spi_mode := 4 })).2.2.isReady
        = true) :=
  C5_begin_validates_mode spi.BusRegistry.empty
    { spi.Config.ofPins 18 19 with spi_mode := 4 } (by decide)

/-- C6: for every device, ready or not, `writeAsync(data, length)` with a null
`data` or a zero `length` fails with `ALLOCATION_FAILED` and leaves the device
as it was; the argument check precedes the readiness check, so the error is
never `NOT_INITIALIZED`, also on a device that is not ready. -/
theorem C6_writeAsync_argument_check (alloc : Nat → Bool) (d : spi.Device)
    (data : Option (List Nat)) (length : Nat) (h : data = none ∨ length = 0) :
    (d.writeAsync alloc data length).1.ok = false ∧
    (d.writeAsync alloc data length).1.error = some spi.SPIError.ALLOCATION_FAILED ∧
    (d.writeAsync alloc data length).1.error ≠ some spi.SPIError.NOT_INITIALIZED ∧
    (d.writeAsync alloc data length).2 = d := by
  cases data with
  | none => simp [spi.Device.writeAsync, spi.Result.ok, spi.Result.error]
  | some bytes =>
    have hl : length = 0 := by
      cases h with
      | inl h0 => simp at h0
      | inr h0 => exact h0
    subst hl
    simp [spi.Device.writeAsync, spi.Result.ok, spi.Result.error]

theorem C6_writeAsync_argument_check_witness :
    ((spi.Device.new (spi.Config.ofPins 18 19)).writeAsync (fun _ => true)
        none 4).1.ok = false ∧
    ((spi.Device.new (spi.Config.ofPins 18 19)).writeAsync (fun _ => true)
        none 4).1.error = some spi.SPIError.ALLOCATION_FAILED ∧
    ((spi.Device.new (spi.Config.ofPins 18 19)).writeAsync (fun _ => true)
        none 4).1.error ≠ some spi.SPIError.NOT_INITIALIZED ∧
    ((spi.Device.new (spi.Config.ofPins 18 19)).writeAsync (fun _ => true)
        none 4).2 = spi.Device.new (spi.Config.ofPins 18 19) :=
  C6_writeAsync_argument_check (fun _ => true) (spi.Device.new (spi.Config.ofPins 18 19))
    none 4 (Or.inl rfl)

/-- C7: for every Config, a freshly constructed device is not ready, and every
data operation on it with otherwise valid arguments fails with
`NOT_INITIALIZED`: `acquireBuffer(size)` with `size > 0`, `writeAsync` of
non-null data with `length > 0`, and `transmit` of a valid buffer. -/
theorem C7_fresh_device_not_initialized (cfg : spi.Config) (alloc : Nat → Bool)
    (size : Nat) (hsize : 0 < size) (bytes : List Nat) (length : Nat) (hlen : 0 < length)
    (buf : List Nat) (blocking : Bool) :
    (spi.Device.new cfg).isReady = false ∧
    ((spi.Device.new cfg).acquireBuffer alloc size).ok = false ∧
    ((spi.Device.new cfg).acquireBuffer alloc size).error
      = some spi.SPIError.NOT_INITIALIZED ∧
    ((spi.Device.new cfg).writeAsync alloc (some bytes) length).1.ok = false ∧
    ((spi.Device.new cfg).writeAsync alloc (some bytes) length).1.error
      = some spi.SPIError.NOT_INITIALIZED ∧
    ((spi.Device.new cfg).transmit (spi.DMABuffer.valid buf) blocking).1
      = some spi.SPIError.NOT_INITIALIZED := by
  have hl : length ≠ 0 := by omega
  have _hs : size ≠ 0 := by omega
  refine ⟨rfl, ?_, ?_, ?_, ?_, ?_⟩
  · simp [spi.Device.acquireBuffer, spi.Device.new, spi.DMABuffer.ok]
  · simp [spi.Device.acquireBuffer, spi.Device.new, spi.DMABuffer.error]
  · simp [spi.Device.writeAsync, spi.Device.new, spi.Result.ok, hl]
  · simp [spi.Device.writeAsync, spi.Device.new, spi.Result.error, hl]
  · simp [spi.Device.transmit, spi.Device.new]

theorem C7_fresh_device_not_initialized_witness :
    (spi.Device.new (spi.Config.ofPins 16 17)).isReady = false ∧
    ((spi.Device.new (spi.Config.ofPins 16 17)).acquireBuffer (fun _ => true) 64).ok
      = false ∧
    ((spi.Device.new (spi.Config.ofPins 16 17)).acquireBuffer (fun _ => true) 64).error
      = some spi.SPIError.NOT_INITIALIZED ∧
    ((spi.Device.new (spi.Config.ofPins 16 17)).writeAsync (fun _ => true)
        (some [1, 2, 3, 4]) 4).1.ok = false ∧
    ((spi.Device.new (spi.Config.ofPins 16 17)).writeAsync (fun _ => true)
        (some [1, 2, 3, 4]) 4).1.error = some spi.SPIError.NOT_INITIALIZED ∧
    ((spi.Device.new (spi.Config.ofPins 16 17)).transmit
        (spi.DMABuffer.valid (List.replicate 64 0)) false).1
      = some spi.SPIError.NOT_INITIALIZED :=
  C7_fresh_device_not_initialized (spi.Config.ofPins 16 17) (fun _ => true) 64 (by decide)
    [1, 2, 3, 4] 4 (by decide) (List.replicate 64 0) false

/-- C8: `begin()` is idempotent: on every device on which `begin()` has
succeeded, a second `begin()` (against the registry the first one left, or
any other) returns no error, leaves the device ready and unchanged, and leaves
the registry unchanged, so no further lane slot is consumed on any clock
line. -/
theorem C8_begin_idempotent (r : spi.BusRegistry) (d : spi.Device)
    (h : (spi.Device.begin r d).1 = none) (r2 : spi.BusRegistry) (clock : Int) :
    (spi.Device.begin r d).2.2.isReady = true ∧
    (spi.Device.begin (spi.Device.begin r d).2.1 (spi.Device.begin r d).2.2).1 = none ∧
    (spi.Device.begin (spi.Device.begin r d).2.1 (spi.Device.begin r d).2.2).2.2.isReady
      = true ∧
    (spi.Device.begin (spi.Device.begin r d).2.1 (spi.Device.begin r d).2.2).2.2
      = (spi.Device.begin r d).2.2 ∧
    (spi.Device.begin (spi.Device.begin r d).2.1 (spi.Device.begin r d).2.2).2.1.lanesOn clock
      = (spi.Device.begin r d).2.1.lanesOn clock ∧
    spi.Device.begin r2 (spi.Device.begin r d).2.2 = (none, r2, (spi.Device.begin r d).2.2) := by
  have hr := begin_success_ready r d h
  have h2 := begin_of_ready (spi.Device.begin r d).2.1 (spi.Device.begin r d).2.2 hr
  refine ⟨hr, ?_, ?_, ?_, ?_, begin_of_ready r2 _ hr⟩
  · rw [h2]
  · rw [h2]; exact hr
  · rw [h2]
  · rw [h2]

theorem C8_begin_idempotent_witness :
    (spi.Device.begin spi.BusRegistry.empty
      (spi.Device.new (spi.Config.ofPins 18 23))).2.2.isReady = true ∧
    (spi.Device.begin
      (spi.Device.begin spi.BusRegistry.empty (spi.Device.new (spi.Config.ofPins 18 23))).2.1
      (spi.Device.begin spi.BusRegistry.empty
        (spi.Device.new (spi.Config.ofPins 18 23))).2.2).1 = none ∧
    (spi.Device.begin
      (spi.Device.begin spi.BusRegistry.empty (spi.Device.new (spi.Config.ofPins 18 23))).2.1
      (spi.Device.begin spi.BusRegistry.empty
        (spi.Device.new (spi.Config.ofPins 18 23))).2.2).2.2.isReady = true ∧
    (spi.Device.begin
      (spi.Device.begin spi.BusRegistry.empty (spi.Device.new (spi.Config.ofPins 18 23))).2.1
      (spi.Device.begin spi.BusRegistry.empty
        (spi.Device.new (spi.Config.ofPins 18 23))).2.2).2.2
      = (spi.Device.begin spi.BusRegistry.empty
          (spi.Device.new (spi.Config.ofPins 18 23))).2.2 ∧
    (spi.Device.begin
      (spi.Device.begin spi.BusRegistry.empty (spi.Device.new (spi.Config.ofPins 18 23))).2.1
      (spi.Device.begin spi.BusRegistry.empty
        (spi.Device.new (spi.Config.ofPins 18 23))).2.2).2.1.lanesOn 18
      = (spi.Device.begin spi.BusRegistry.empty
          (spi.Device.new (spi.Config.ofPins 18 23))).2.1.lanesOn 18 ∧
    spi.Device.begin spi.BusRegistry.empty
        (spi.Device.begin spi.BusRegistry.empty
          (spi.Device.new (spi.Config.ofPins 18 23))).2.2
      = (none, spi.BusRegistry.empty,
          (spi.Device.begin spi.BusRegistry.empty
            (spi.Device.new (spi.Config.ofPins 18 23))).2.2) :=
  C8_begin_idempotent spi.BusRegistry.empty (spi.Device.new (spi.Config.ofPins 18 23))
    (by decide) spi.BusRegistry.empty 18

/-- C9: for every device `end()` leaves it not ready, and on a device on which
`begin()` was never called it changes nothing; for every Config with a valid
`spi_mode` on a clock line with free capacity, `begin()` takes one lane on the
line, `end()` releases it (the line hosts as many lanes as before and the
device is not ready), a subsequent `begin()` succeeds again, and any number
`k` of begin/end cycles succeeds, leaving the registry as it was. -/
theorem C9_end_releases (r0 : spi.BusRegistry) (d : spi.Device)
    (r : spi.BusRegistry) (cfg : spi.Config) (k : Nat)
    (hmode : cfg.spi_mode ∈ [0, 1, 2, 3])
    (hcap : r.lanesOn cfg.clock_pin < spi.MAX_LANES_PER_CLOCK) :
    (spi.Device.end_ r0 d).2.isReady = false ∧
    spi.Device.end_ r0 (spi.Device.new cfg) = (r0, spi.Device.new cfg) ∧
    (spi.Device.begin r (spi.Device.new cfg)).1 = none ∧
    (spi.Device.begin r (spi.Device.new cfg)).2.1.lanesOn cfg.clock_pin
      = r.lanesOn cfg.clock_pin + 1 ∧
    (spi.Device.end_ (spi.Device.begin r (spi.Device.new cfg)).2.1
        (spi.Device.begin r (spi.Device.new cfg)).2.2).1.lanesOn cfg.clock_pin
      = r.lanesOn cfg.clock_pin ∧
    (spi.Device.end_ (spi.Device.begin r (spi.Device.new cfg)).2.1
        (spi.Device.begin r (spi.Device.new cfg)).2.2).2.isReady = false ∧
    (spi.Device.begin
        (spi.Device.end_ (spi.Device.begin r (spi.Device.new cfg)).2.1
          (spi.Device.begin r (spi.Device.new cfg)).2.2).1
        (spi.Device.end_ (spi.Device.begin r (spi.Device.new cfg)).2.1
          (spi.Device.begin r (spi.Device.new cfg)).2.2).2).1 = none ∧
    (spi.Device.begin
        (spi.Device.end_ (spi.Device.begin r (spi.Device.new cfg)).2.1
          (spi.Device.begin r (spi.Device.new cfg)).2.2).1
        (spi.Device.end_ (spi.Device.begin r (spi.Device.new cfg)).2.1
          (spi.Device.begin r (spi.Device.new cfg)).2.2).2).2.2.isReady = true ∧
    spi.beginEndCycles k r (spi.Device.new cfg) = some (r, spi.Device.new cfg) := by
  have hb := begin_of_valid r (spi.Device.new cfg) rfl hmode hcap
  have hrt := begin_end_roundtrip r cfg hmode hcap
  refine ⟨?_, ?_, ?_, ?_, ?_, ?_, ?_, ?_, beginEndCycles_fresh r cfg hmode hcap k⟩
  · unfold spi.Device.end_
    by_cases hr : d.ready = true
    · rw [if_pos hr]; rfl
    · rw [if_neg hr]
      simpa [spi.Device.isReady] using hr
  · rfl
  · rw [hb]
  · rw [hb]
    have hl := lanesOn_cons r cfg.clock_pin cfg.clock_pin cfg.data_pins
    rw [if_pos rfl] at hl
    exact hl
  · rw [hrt]
  · rw [hrt]; rfl
  · rw [hrt, hb]
  · rw [hrt, hb]; rfl

theorem C9_end_releases_witness :
    spi.beginEndCycles 5 spi.BusRegistry.empty (spi.Device.new (spi.Config.ofPins 18 23))
      = some (spi.BusRegistry.empty, spi.Device.new (spi.Config.ofPins 18 23)) :=
  (C9_end_releases spi.BusRegistry.empty (spi.Device.new (spi.Config.ofPins 18 23))
    spi.BusRegistry.empty (spi.Config.ofPins 18 23) 5 (by decide) (by decide)).2.2.2.2.2.2.2.2

/-- C10, as stated, fails: on a ready device, with a heap that can satisfy
allocations of at most 1024 bytes, `acquireBuffer(4096)` is not ok and carries
`ALLOCATION_FAILED`, although 4096 >= 1. -/
theorem C10_acquireBuffer_counterexample :
    (1 ≤ 4096) ∧
    (spi.Device.begin spi.BusRegistry.empty
      (spi.Device.new (spi.Config.ofPins 16 17))).2.2.isReady = true ∧
    ((spi.Device.begin spi.BusRegistry.empty
      (spi.Device.new (spi.Config.ofPins 16 17))).2.2.acquireBuffer
        (fun n => decide (n ≤ 1024)) 4096).ok = false ∧
    ((spi.Device.begin spi.BusRegistry.empty
      (spi.Device.new (spi.Config.ofPins 16 17))).2.2.acquireBuffer
        (fun n => decide (n ≤ 1024)) 4096).error = some spi.SPIError.ALLOCATION_FAILED := by
  decide

/-- C10, amended: for every size `N >= 1` whose backing allocation can be
satisfied, `acquireBuffer(N)` on a ready device returns a buffer with
`ok() == true` and `size() == N` (its data span has exactly `N` bytes);
`acquireBuffer(0)` on a ready device fails with `ALLOCATION_FAILED`; on a
device that is not ready `acquireBuffer` returns `ok() == false` with
`error() == NOT_INITIALIZED`, whatever the size. -/
theorem C10_acquireBuffer (alloc : Nat → Bool) (d : spi.Device) (N : Nat) (hN : 1 ≤ N)
    (halloc : alloc N = true) (size : Nat) :
    (d.isReady = true →
      (d.acquireBuffer alloc N).ok = true ∧ (d.acquireBuffer alloc N).size = N ∧
      (d.acquireBuffer alloc N).data.length = N) ∧
    (d.isReady = true →
      (d.acquireBuffer alloc 0).ok = false ∧
      (d.acquireBuffer alloc 0).error = some spi.SPIError.ALLOCATION_FAILED) ∧
    (d.isReady = false →
      (d.acquireBuffer alloc size).ok = false ∧
      (d.acquireBuffer alloc size).error = some spi.SPIError.NOT_INITIALIZED) := by
  have hN0 : N ≠ 0 := by omega
  refine ⟨?_, ?_, ?_⟩
  · intro hr
    have hr1 : d.ready = true := hr
    simp [spi.Device.acquireBuffer, hr1, hN0, halloc, spi.DMABuffer.ok, spi.DMABuffer.size,
      spi.DMABuffer.data]
  · intro hr
    have hr1 : d.ready = true := hr
    simp [spi.Device.acquireBuffer, hr1, spi.DMABuffer.ok, spi.DMABuffer.error]
  · intro hr
    have hr1 : d.ready = false := hr
    simp [spi.Device.acquireBuffer, hr1, spi.DMABuffer.ok, spi.DMABuffer.error]

theorem C10_acquireBuffer_witness :
    ((spi.Device.begin spi.BusRegistry.empty
        (spi.Device.new (spi.Config.ofPins 16 17))).2.2.acquireBuffer
          (fun _ => true) 64).ok = true ∧
    ((spi.Device.begin spi.BusRegistry.empty
        (spi.Device.new (spi.Config.ofPins 16 17))).2.2.acquireBuffer
          (fun _ => true) 64).size = 64 ∧
    ((spi.Device.begin spi.BusRegistry.empty
        (spi.Device.new (spi.Config.ofPins 16 17))).2.2.acquireBuffer
          (fun _ => true) 64).data.length = 64 :=
  (C10_acquireBuffer (fun _ => true)
    (spi.Device.begin spi.BusRegistry.empty (spi.Device.new (spi.Config.ofPins 16 17))).2.2
    64 (by decide) rfl 0).1 (by decide)

/-- C11, as stated, fails on the specified failure paths of `writeAsync`: on
a ready, idle device, with a heap that satisfies at most 2 bytes, a write of 4
non-null bytes fails with `ALLOCATION_FAILED`; and on a ready device whose
previous transfer is still outstanding, a write of non-null data of positive
length is rejected with `BUSY`. -/
theorem C11_writeAsync_counterexample :
    ((spi.Device.begin spi.BusRegistry.empty
        (spi.Device.new (spi.Config.ofPins 18 19))).2.2.isReady = true ∧
      ((spi.Device.begin spi.BusRegistry.empty
        (spi.Device.new (spi.Config.ofPins 18 19))).2.2.writeAsync
          (fun n => decide (n ≤ 2)) (some [1, 2, 3, 4]) 4).1.ok = false ∧
      ((spi.Device.begin spi.BusRegistry.empty
        (spi.Device.new (spi.Config.ofPins 18 19))).2.2.writeAsync
          (fun n => decide (n ≤ 2)) (some [1, 2, 3, 4]) 4).1.error
        = some spi.SPIError.ALLOCATION_FAILED) ∧
    ((((spi.Device.begin spi.BusRegistry.empty
        (spi.Device.new (spi.Config.ofPins 18 19))).2.2.writeAsync
          (fun _ => true) (some [1, 2, 3, 4]) 4).2).isReady = true ∧
      ((((spi.Device.begin spi.BusRegistry.empty
        (spi.Device.new (spi.Config.ofPins 18 19))).2.2.writeAsync
          (fun _ => true) (some [1, 2, 3, 4]) 4).2).writeAsync
            (fun _ => true) (some [5, 6, 7, 8]) 4).1.ok = false ∧
      ((((spi.Device.begin spi.BusRegistry.empty
        (spi.Device.new (spi.Config.ofPins 18 19))).2.2.writeAsync
          (fun _ => true) (some [1, 2, 3, 4]) 4).2).writeAsync
            (fun _ => true) (some [5, 6, 7, 8]) 4).1.error = some spi.SPIError.BUSY) := by
  decide

/-- C11, amended: for every ready device with no transfer outstanding and
every non-null data of length > 0 for which the transaction can be allocated,
`writeAsync` succeeds and the returned transaction's `wait()` returns true;
afterwards `isDone() == true`, `isPending() == false`, `getResult()` holds no
error and the device is not busy, so a second `writeAsync` (of non-null data
of positive, allocatable length) issued after the first is done also
succeeds. -/
theorem C11_writeAsync_wait (alloc : Nat → Bool) (d : spi.Device) (bytes : List Nat)
    (length : Nat) (hr : d.isReady = true) (hidle : d.isBusy = false) (hl : 0 < length)
    (ha : alloc length = true) (bytes2 : List Nat) (length2 : Nat) (hl2 : 0 < length2)
    (ha2 : alloc length2 = true) :
    (d.writeAsync alloc (some bytes) length).1.ok = true ∧
    ∃ t : spi.Transaction,
      (d.writeAsync alloc (some bytes) length).1.value = some t ∧
      t.isPending = true ∧
      (t.wait (d.writeAsync alloc (some bytes) length).2).1 = true ∧
      (t.wait (d.writeAsync alloc (some bytes) length).2).2.1.isDone = true ∧
      (t.wait (d.writeAsync alloc (some bytes) length).2).2.1.isPending = false ∧
      (t.wait (d.writeAsync alloc (some bytes) length).2).2.1.getResult = none ∧
      (t.wait (d.writeAsync alloc (some bytes) length).2).2.2.isBusy = false ∧
      ((t.wait (d.writeAsync alloc (some bytes) length).2).2.2.writeAsync alloc
        (some bytes2) length2).1.ok = true := by
  have hw := writeAsync_of_idle alloc d bytes length hr hidle hl ha
  rw [hw]
  refine ⟨rfl, _, rfl, rfl, ?_⟩
  rw [wait_of_pending _ _ rfl]
  refine ⟨rfl, rfl, rfl, rfl, rfl, ?_⟩
  have hr1 : d.ready = true := hr
  have h2 := writeAsync_of_idle alloc
    ({ config := d.config, ready := d.ready, busy := false } : spi.Device)
    bytes2 length2 hr1 rfl hl2 ha2
  simp only []
  rw [h2]
  rfl

theorem C11_writeAsync_wait_witness :
    ((spi.Device.begin spi.BusRegistry.empty
        (spi.Device.new (spi.Config.ofPins 18 19))).2.2.writeAsync (fun _ => true)
          (some [1, 2, 3, 4]) 4).1.ok = true :=
  (C11_writeAsync_wait (fun _ => true)
    (spi.Device.begin spi.BusRegistry.empty (spi.Device.new (spi.Config.ofPins 18 19))).2.2
    [1, 2, 3, 4] 4 (by decide) (by decide) (by decide) rfl [5, 6, 7, 8] 4 (by decide) rfl).1

/-- C12: for every transaction returned by a successful `writeAsync`, the
transaction is pending, `cancel()` called then returns true and leaves
`isDone() == true` and `isPending() == false` (and the device not busy); the
next `cancel()` returns false and changes neither the transaction nor the
device, and so does every later one (any number `k` of further calls leaves
the state where it was). -/
theorem C12_cancel (alloc : Nat → Bool) (d : spi.Device) (data : Option (List Nat))
    (length : Nat) (t : spi.Transaction)
    (h : (d.writeAsync alloc data length).1.value = some t) (k : Nat) :
    t.isPending = true ∧
    (t.cancel (d.writeAsync alloc data length).2).1 = true ∧
    (t.cancel (d.writeAsync alloc data length).2).2.1.isDone = true ∧
    (t.cancel (d.writeAsync alloc data length).2).2.1.isPending = false ∧
    (t.cancel (d.writeAsync alloc data length).2).2.2.isBusy = false ∧
    ((t.cancel (d.writeAsync alloc data length).2).2.1.cancel
        (t.cancel (d.writeAsync alloc data length).2).2.2)
      = (false, (t.cancel (d.writeAsync alloc data length).2).2.1,
          (t.cancel (d.writeAsync alloc data length).2).2.2) ∧
    Nat.iterate (fun s : spi.Transaction × spi.Device => (s.1.cancel s.2).2) k
        (t.cancel (d.writeAsync alloc data length).2).2
      = (t.cancel (d.writeAsync alloc data length).2).2 := by
  have hp := writeAsync_value_pending alloc d data length t h
  rw [cancel_of_pending t _ hp]
  have hnp : ({ t with state := spi.TransactionState.Cancelled } : spi.Transaction).state
      ≠ spi.TransactionState.Pending := by simp
  refine ⟨?_, rfl, rfl, rfl, rfl, cancel_of_not_pending _ _ hnp,
    cancel_iterate_fixed _ _ hnp k⟩
  simp [spi.Transaction.isPending, hp]

theorem C12_cancel_witness :
    ({ state := spi.TransactionState.Pending, payload := [1, 2, 3, 4], result := none }
      : spi.Transaction).isPending = true :=
  (C12_cancel (fun _ => true)
    (spi.Device.begin spi.BusRegistry.empty (spi.Device.new (spi.Config.ofPins 18 19))).2.2
    (some [1, 2, 3, 4]) 4
    { state := spi.TransactionState.Pending, payload := [1, 2, 3, 4], result := none }
    (by decide) 3).1

/-- C13: for every clock pin `c` and data pin `d`, `Config(c, d)` has
`clock_pin == c`, `data_pins == [d]` (exactly one element),
`clock_speed_hz == 0xFFFFFFFF` and `spi_mode == 0`; and for every Config
`cfg`, `Device(cfg).getConfig()` returns `cfg` unchanged, before `begin()` and
after it (against any registry, whether `begin()` succeeds or not). -/
theorem C13_config_defaults_and_persistence (c d : Int) (cfg : spi.Config)
    (r : spi.BusRegistry) :
    (spi.Config.ofPins c d).clock_pin = c ∧
    (spi.Config.ofPins c d).data_pins = [d] ∧
    (spi.Config.ofPins c d).data_pins.length = 1 ∧
    (spi.Config.ofPins c d).clock_speed_hz = 0xFFFFFFFF ∧
    (spi.Config.ofPins c d).spi_mode = 0 ∧
    (spi.Device.new cfg).getConfig = cfg ∧
    (spi.Device.begin r (spi.Device.new cfg)).2.2.getConfig = cfg :=
  ⟨rfl, rfl, rfl, rfl, rfl, rfl, begin_config r (spi.Device.new cfg)⟩

/-- C14, as stated, fails: the Configs `(10, 11)` with `spi_mode = 4` and
`(12, 13)` have distinct clock pins, yet from the empty registry `begin()` on
the first reports an error and that device is not ready. -/
theorem C14_two_devices_counterexample :
    ({ spi.Config.ofPins 10 11 with spi_mode := 4 } : spi.Config).clock_pin
      ≠ (spi.Config.ofPins 12 13).clock_pin ∧
    (spi.Device.begin spi.BusRegistry.empty
      (spi.Device.new { spi.Config.ofPins 10 11 with spi_mode := 4 })).1.isSome = true ∧
    (spi.Device.begin spi.BusRegistry.empty
      (spi.Device.new { spi.Config.ofPins 10 11 with spi_mode := 4 })).2.2.isReady
      = false := by
  decide

/-- C14, amended: starting from an empty registry, for every two Configs with
distinct clock pins and `spi_mode` within 0..3, `begin()` on both devices
succeeds and both report `isReady() == true`; and for every registry and every
Config, `begin()` leaves the lane count of every other clock line unchanged,
so registering a lane on one clock line does not reduce the capacity of, or
fail registration on, any other clock line. -/
theorem C14_two_devices (cfg1 cfg2 : spi.Config)
    (hne : cfg1.clock_pin ≠ cfg2.clock_pin)
    (hm1 : cfg1.spi_mode ∈ [0, 1, 2, 3]) (hm2 : cfg2.spi_mode ∈ [0, 1, 2, 3])
    (r : spi.BusRegistry) (cfg : spi.Config) (clock : Int) (pins : List Int)
    (hother : clock ≠ cfg.clock_pin) :
    (spi.Device.begin spi.BusRegistry.empty (spi.Device.new cfg1)).1 = none ∧
    (spi.Device.begin spi.BusRegistry.empty (spi.Device.new cfg1)).2.2.isReady = true ∧
    (spi.Device.begin (spi.Device.begin spi.BusRegistry.empty (spi.Device.new cfg1)).2.1
      (spi.Device.new cfg2)).1 = none ∧
    (spi.Device.begin (spi.Device.begin spi.BusRegistry.empty (spi.Device.new cfg1)).2.1
      (spi.Device.new cfg2)).2.2.isReady = true ∧
    (spi.Device.begin r (spi.Device.new cfg)).2.1.lanesOn clock = r.lanesOn clock ∧
    ((spi.Device.begin r (spi.Device.new cfg)).2.1.register clock pins = .error spi.SPIError.BUSY
      ↔ r.register clock pins = .error spi.SPIError.BUSY) := by
  have hcap1 : spi.BusRegistry.empty.lanesOn cfg1.clock_pin < spi.MAX_LANES_PER_CLOCK := by
    rw [lanesOn_empty]; decide
  have hb1 := begin_of_valid spi.BusRegistry.empty (spi.Device.new cfg1) rfl hm1 hcap1
  have hl2 := begin_lanesOn_other spi.BusRegistry.empty (spi.Device.new cfg1)
    cfg2.clock_pin (fun he => hne he.symm)
  have hcap2 : (spi.Device.begin spi.BusRegistry.empty (spi.Device.new cfg1)).2.1.lanesOn
      cfg2.clock_pin < spi.MAX_LANES_PER_CLOCK := by
    rw [hl2, lanesOn_empty]; decide
  have hb2 := begin_of_valid _ (spi.Device.new cfg2) rfl hm2 hcap2
  have hfr := begin_lanesOn_other r (spi.Device.new cfg) clock hother
  refine ⟨?_, ?_, ?_, ?_, hfr, ?_⟩
  · rw [hb1]
  · rw [hb1]; rfl
  · rw [hb2]
  · rw [hb2]; rfl
  · unfold spi.BusRegistry.register
    rw [hfr]
    by_cases hfull : spi.MAX_LANES_PER_CLOCK ≤ r.lanesOn clock
    · rw [if_pos hfull, if_pos hfull]
    · rw [if_neg hfull, if_neg hfull]
      constructor <;> intro hc <;> cases hc

theorem C14_two_devices_witness :
    (spi.Device.begin spi.BusRegistry.empty (spi.Device.new (spi.Config.ofPins 10 11))).1
      = none ∧
    (spi.Device.begin spi.BusRegistry.empty
      (spi.Device.new (spi.Config.ofPins 10 11))).2.2.isReady = true ∧
    (spi.Device.begin
      (spi.Device.begin spi.BusRegistry.empty (spi.Device.new (spi.Config.ofPins 10 11))).2.1
      (spi.Device.new (spi.Config.ofPins 12 13))).1 = none ∧
    (spi.Device.begin
      (spi.Device.begin spi.BusRegistry.empty (spi.Device.new (spi.Config.ofPins 10 11))).2.1
      (spi.Device.new (spi.Config.ofPins 12 13))).2.2.isReady = true :=
  have h := C14_two_devices (spi.Config.ofPins 10 11) (spi.Config.ofPins 12 13)
    (by decide) (by decide) (by decide) spi.BusRegistry.empty (spi.Config.ofPins 10 11) 12
    [13] (by decide)
  ⟨h.1, h.2.1, h.2.2.1, h.2.2.2.1⟩

/-- C15: for every device, ready or not, and every u32 `hz` (0 and values
above any hardware maximum included), `setClockSpeed(hz)` returns no error and
afterwards `getConfig().clock_speed_hz == hz`, while `isReady()`, the busy
state and the other Config fields are unchanged. -/
theorem C15_setClockSpeed (d : spi.Device) (hz : Nat) (hhz : hz < 2 ^ 32) :
    (d.setClockSpeed hz).1 = none ∧
    (d.setClockSpeed hz).2.getConfig.clock_speed_hz = hz ∧
    (d.setClockSpeed hz).2.isReady = d.isReady ∧
    (d.setClockSpeed hz).2.isBusy = d.isBusy ∧
    (d.setClockSpeed hz).2.getConfig.clock_pin = d.getConfig.clock_pin ∧
    (d.setClockSpeed hz).2.getConfig.data_pins = d.getConfig.data_pins ∧
    (d.setClockSpeed hz).2.getConfig.spi_mode = d.getConfig.spi_mode := by
  refine ⟨rfl, ?_, rfl, rfl, rfl, rfl, rfl⟩
  simp only [spi.Device.setClockSpeed, spi.Device.getConfig]
  exact Nat.mod_eq_of_lt hhz

theorem C15_setClockSpeed_witness :
    ((spi.Device.new (spi.Config.ofPins 18 19)).setClockSpeed 80000000).1 = none ∧
    ((spi.Device.new (spi.Config.ofPins 18 19)).setClockSpeed 80000000).2.getConfig.clock_speed_hz
      = 80000000 :=
  have h := C15_setClockSpeed (spi.Device.new (spi.Config.ofPins 18 19)) 80000000 (by decide)
  ⟨h.1, h.2.1⟩

/-- C16: a default-constructed `Result<T>`, for the no-value specialisation
(`T = Unit`) and for every value type, is a failure: `ok() == false`, its
boolean conversion is false, and `error() == NOT_INITIALIZED`. -/
theorem C16_result_default (T : Type) :
    (spi.Result.default T).ok = false ∧
    (spi.Result.default T).toBool = false ∧
    (spi.Result.default T).error = some spi.SPIError.NOT_INITIALIZED ∧
    (spi.Result.default Unit).ok = false ∧
    (spi.Result.default Unit).toBool = false ∧
    (spi.Result.default Unit).error = some spi.SPIError.NOT_INITIALIZED :=
  ⟨rfl, rfl, rfl, rfl, rfl, rfl⟩

/-- C17: for every error code `c` and message `m`, `Result<T>::failure(c, m)`
has `ok() == false`, boolean conversion false, `error() == c` and `message()`
equal to `m`; and for every value `v`, `Result<T>::success(v)` has
`ok() == true`, boolean conversion true and `value() == v`. -/
theorem C17_result_failure_success (T : Type) (c : spi.SPIError) (m : String) (v : T) :
    (spi.Result.failure c m : spi.Result T).ok = false ∧
    (spi.Result.failure c m : spi.Result T).toBool = false ∧
    (spi.Result.failure c m : spi.Result T).error = some c ∧
    (spi.Result.failure c m : spi.Result T).message = m ∧
    (spi.Result.success v).ok = true ∧
    (spi.Result.success v).toBool = true ∧
    (spi.Result.success v).value = some v :=
  ⟨rfl, rfl, rfl, rfl, rfl, rfl, rfl⟩

/-- C18: `P9813Controller::getPaddingLEDFrame()` is exactly the 4 bytes that
the protocol's encoder `writeLed(r, g, b)` emits for the black pixel
`r = g = b = 0`, namely `[0xFF, 0x00, 0x00, 0x00]`: the flag byte computed from
the inverted top bits, then B, G, R (for every width of `int` of at least 8
bits). -/
theorem C18_P9813_padding_frame (iw : Nat) (h8 : 8 ≤ iw) :
    (P9813Controller.writeLed iw { out := [] } 0 0 0).out
      = P9813Controller.getPaddingLEDFrame ∧
    P9813Controller.getPaddingLEDFrame = [0xFF, 0x00, 0x00, 0x00] ∧
    P9813Controller.topByte iw 0 0 0 = 0xFF := by
  have htop : P9813Controller.topByte iw 0 0 0 = 0xFF := by
    unfold P9813Controller.topByte
    rw [intNot_and_C0 iw 0 h8 (by decide)]
    decide
  refine ⟨?_, rfl, htop⟩
  unfold P9813Controller.writeLed
  rw [htop]
  rfl

theorem C18_P9813_padding_frame_witness :
    (P9813Controller.writeLed 16 { out := [] } 0 0 0).out
      = P9813Controller.getPaddingLEDFrame ∧
    P9813Controller.getPaddingLEDFrame = [0xFF, 0x00, 0x00, 0x00] ∧
    P9813Controller.topByte 16 0 0 0 = 0xFF :=
  C18_P9813_padding_frame 16 (by decide)

/-- C19: `LPD8806Controller::getPaddingLEDFrame()` is exactly the encoding of a
black pixel: each of its 3 bytes equals `LPD8806_ADJUST::adjust(0) == 0x80`,
and for every byte `d`, `adjust(d) == 0x80` if and only if `d == 0`. -/
theorem C19_LPD8806_padding_frame (d : Nat) (hd : d < 256) :
    LPD8806Controller.getPaddingLEDFrame
      = [LPD8806Controller.adjust 0, LPD8806Controller.adjust 0,
          LPD8806Controller.adjust 0] ∧
    LPD8806Controller.adjust 0 = 0x80 ∧
    (∀ x ∈ LPD8806Controller.getPaddingLEDFrame, x = LPD8806Controller.adjust 0) ∧
    (LPD8806Controller.adjust d = 0x80 ↔ d = 0) := by
  exact ⟨by decide, by decide, by decide, LPD8806_adjust_black_iff d hd⟩

theorem C19_LPD8806_padding_frame_witness :
    LPD8806Controller.adjust 1 = 0x80 ↔ 1 = 0 :=
  (C19_LPD8806_padding_frame 1 (by decide)).2.2.2

/-- C20: for each of LPD8806, WS2801, APA102 and P9813 the span returned by
`getPaddingLEDFrame()` has length exactly `getPaddingLEDFrameSize()` (3, 3, 4
and 4 bytes), which is also the number of data bytes `calculateBytes` counts
per LED: whenever the counts fit `size_t`, `calculateBytes(n)` is the frame
size times `n` plus the protocol's framing bytes (the latch bytes for LPD8806,
none for WS2801, start and end frame for APA102, two boundaries for P9813). -/
theorem C20_padding_frame_sizes (w n : Nat)
    (hfit : 4 * n + 4 * (n / 32) + 63 + (3 * n + 63) / 64 < 2 ^ w) :
    (LPD8806Controller.getPaddingLEDFrame.length = LPD8806Controller.getPaddingLEDFrameSize ∧
      LPD8806Controller.getPaddingLEDFrameSize = 3 ∧
      LPD8806Controller.calculateBytes w n
        = LPD8806Controller.getPaddingLEDFrameSize * n + (3 * n + 63) / 64) ∧
    (WS2801Controller.getPaddingLEDFrame.length = WS2801Controller.getPaddingLEDFrameSize ∧
      WS2801Controller.getPaddingLEDFrameSize = 3 ∧
      WS2801Controller.calculateBytes w n = WS2801Controller.getPaddingLEDFrameSize * n) ∧
    (APA102Controller.getPaddingLEDFrame.length = APA102Controller.getPaddingLEDFrameSize ∧
      APA102Controller.getPaddingLEDFrameSize = 4 ∧
      APA102Controller.calculateBytes w n
        = APA102Controller.getPaddingLEDFrameSize * n + (4 + 4 * (n / 32 + 1))) ∧
    (P9813Controller.getPaddingLEDFrame.length = P9813Controller.getPaddingLEDFrameSize ∧
      P9813Controller.getPaddingLEDFrameSize = 4 ∧
      P9813Controller.calculateBytes w n
        = P9813Controller.getPaddingLEDFrameSize * n + (4 + 4)) := by
  refine ⟨⟨rfl, rfl, ?_⟩, ⟨rfl, rfl, ?_⟩, ⟨rfl, rfl, ?_⟩, ⟨rfl, rfl, ?_⟩⟩
  · rw [LPD8806_calculateBytes_exact (by omega)]; rfl
  · rw [WS2801_calculateBytes_exact (by omega)]; rfl
  · rw [APA102_calculateBytes_exact (by omega)]
    have : APA102Controller.getPaddingLEDFrameSize = 4 := rfl
    rw [this]; omega
  · rw [P9813_calculateBytes_exact (by omega)]
    have : P9813Controller.getPaddingLEDFrameSize = 4 := rfl
    rw [this]

theorem C20_padding_frame_sizes_witness :
    LPD8806Controller.calculateBytes 16 21
      = LPD8806Controller.getPaddingLEDFrameSize * 21 + (3 * 21 + 63) / 64 :=
  (C20_padding_frame_sizes 16 21 (by decide)).1.2.2

/-- C21: for every LED count `n >= 0` without overflow (the byte count fits
`size_t`, and `3n + 63` fits the `int` in which `postBlock` computes),
`LPD8806Controller::calculateBytes(n)` equals `3*n` plus the number of `0x00`
latch bytes that `LPD8806_ADJUST::postBlock(n)` writes, which is
`(3n + 63) / 64 == (3n + 63) >> 6`, the least `k` with `3n <= 64k` (the ceiling
of `3n / 64`): 0 for `n == 0` and at least 1 for `n >= 1`. -/
theorem C21_LPD8806_latch_bytes (w iw n : Nat) (spi : SPIOutput)
    (h : 3 * n + 63 + (3 * n + 63) / 64 < 2 ^ w)
    (hint : 3 * n + 63 < 2 ^ (iw - 1)) :
    (LPD8806Controller.postBlock iw (n : Int) spi).out
      = spi.out ++ List.replicate ((3 * n + 63) / 64) 0x00 ∧
    LPD8806Controller.calculateBytes w n
      = 3 * n + ((LPD8806Controller.postBlock iw (n : Int) spi).out.length
          - spi.out.length) ∧
    (3 * n + 63) / 64 = (3 * n + 63) >>> 6 ∧
    (3 * n ≤ 64 * ((3 * n + 63) / 64) ∧ ∀ k, 3 * n ≤ 64 * k → (3 * n + 63) / 64 ≤ k) ∧
    (n = 0 → (3 * n + 63) / 64 = 0) ∧
    (1 ≤ n → 1 ≤ (3 * n + 63) / 64) := by
  refine ⟨postBlock_out iw n spi hint, ?_, ?_, ⟨by omega, fun k hk => by omega⟩,
    fun h0 => by omega, fun h1 => by omega⟩
  · rw [postBlock_out iw n spi hint, LPD8806_calculateBytes_exact h]
    simp
  · rw [Nat.shiftRight_eq_div_pow]

theorem C21_LPD8806_latch_bytes_witness :
    (3 * 21 + 63 + (3 * 21 + 63) / 64 < 2 ^ 16 ∧ 3 * 21 + 63 < 2 ^ (16 - 1)) ∧
    (LPD8806Controller.postBlock 16 ((21 : Nat) : Int) { out := [] }).out
      = ({ out := [] } : SPIOutput).out ++ List.replicate ((3 * 21 + 63) / 64) 0x00 ∧
    LPD8806Controller.calculateBytes 16 21
      = 3 * 21 + ((LPD8806Controller.postBlock 16 ((21 : Nat) : Int) { out := [] }).out.length
          - ({ out := [] } : SPIOutput).out.length) :=
  have h := C21_LPD8806_latch_bytes 16 16 21 { out := [] } (by decide) (by decide)
  ⟨⟨by decide, by decide⟩, h.1, h.2.1⟩

/-- C22, as stated, fails where `calculateBytes` overflows: with a 16-bit
`size_t` (AVR) a strip of 16384 pixels makes `P9813Controller::showPixels`
write 65544 bytes while `calculateBytes(16384)` is 8; with a 32-bit `size_t` a
strip of 2^30 pixels gets 4294967304 bytes written while `calculateBytes` is
8. -/
theorem C22_P9813_stream_length_counterexample :
    ((P9813Controller.showPixels 16 (List.replicate 16384 (0, 0, 0)) { out := [] }).out.length
        = 65544 ∧
      P9813Controller.calculateBytes 16 16384 = 8 ∧ (65544 : Nat) ≠ 8) ∧
    ((P9813Controller.showPixels 32 (List.replicate (2 ^ 30) (0, 0, 0))
        { out := [] }).out.length = 4294967304 ∧
      P9813Controller.calculateBytes 32 (2 ^ 30) = 8 ∧ (4294967304 : Nat) ≠ 8) := by
  refine ⟨⟨?_, by decide, by decide⟩, ⟨?_, by decide, by decide⟩⟩
  · rw [P9813_showPixels_length, List.length_replicate]
    norm_num
  · rw [P9813_showPixels_length, List.length_replicate]
    norm_num

/-- C22, amended: for every pixel count `n >= 0` whose byte count `4*n + 8`
does not overflow `size_t`, the byte stream `P9813Controller::showPixels`
writes (a 4-byte zero boundary, 4 bytes per pixel from writeLed, a 4-byte zero
boundary; each writeWord counted as two bytes) has length exactly
`P9813Controller::calculateBytes(n) == 4*n + 8`. -/
theorem C22_P9813_stream_length (w iw : Nat) (pixels : List (Nat × Nat × Nat))
    (spi : SPIOutput) (h : 4 * pixels.length + 8 < 2 ^ w) :
    (P9813Controller.showPixels iw pixels spi).out.length
      = spi.out.length + P9813Controller.calculateBytes w pixels.length ∧
    P9813Controller.calculateBytes w pixels.length = 4 * pixels.length + 8 ∧
    (P9813Controller.writeBoundary spi).out = spi.out ++ [0, 0, 0, 0] := by
  refine ⟨?_, P9813_calculateBytes_exact h, ?_⟩
  · rw [P9813_showPixels_length, P9813_calculateBytes_exact h]
  · simp [P9813Controller.writeBoundary, SPIOutput.writeWord]

theorem C22_P9813_stream_length_witness :
    (P9813Controller.showPixels 16 [(1, 2, 3), (4, 5, 6)] { out := [] }).out.length
      = ({ out := [] } : SPIOutput).out.length
        + P9813Controller.calculateBytes 16 [(1, 2, 3), (4, 5, 6)].length :=
  (C22_P9813_stream_length 16 16 [(1, 2, 3), (4, 5, 6)] { out := [] } (by decide)).1

/-- C23: for every strip of pixels with 8-bit scaled channels,
`LPD6803Controller::showPixels` returns (once the fuel covers the
`n / 32 + 1` end-frame iterations) having written the four-byte start boundary,
then for every pixel `(r, g, b)` in turn exactly two bytes, in order the high
and the low byte of the 16-bit word
`0x8000 | ((r >> 3) << 10) | ((g >> 3) << 5) | (b >> 3)`, then the end frames;
the word is a constant 1 bit followed by three non-overlapping 5-bit fields
(the OR is a sum), and the high byte, which the loop body writes before blue is
OR-ed in, equals the high byte of the final word. -/
theorem C23_LPD6803_pixel_word (fuel : Nat) (spi : SPIOutput)
    (pre post : List (Nat × Nat × Nat)) (r g b : Nat)
    (hbytes : ∀ p ∈ pre ++ (r, g, b) :: post, p.1 < 256 ∧ p.2.1 < 256 ∧ p.2.2 < 256)
    (hfuel : (pre ++ (r, g, b) :: post).length / 32 + 1 ≤ fuel) :
    LPD6803Controller.showPixels fuel (pre ++ (r, g, b) :: post) spi
      = some { out := spi.out ++ [0x00, 0x00, 0x00, 0x00]
                ++ (LPD6803Controller.pixelStream pre
                    ++ [LPD6803Controller.pixelWord r g b >>> 8,
                        LPD6803Controller.pixelWord r g b &&& 0xFF]
                    ++ LPD6803Controller.pixelStream post)
                ++ repeatFrame [0xFF, 0x00, 0x00, 0x00]
                    ((pre ++ (r, g, b) :: post).length / 32 + 1) } ∧
    (LPD6803Controller.pixelStream pre).length = 2 * pre.length ∧
    (LPD6803Controller.pixelStream post).length = 2 * post.length ∧
    LPD6803Controller.pixelWord r g b
      = 0x8000 ||| ((r >>> 3) <<< 10) ||| ((g >>> 3) <<< 5) ||| (b >>> 3) ∧
    (LPD6803Controller.writePixel spi r g b).out
      = spi.out ++
        [(0x8000 ||| ((r >>> 3) <<< 10) ||| ((g >>> 3) <<< 5) ||| (b >>> 3)) >>> 8,
         (0x8000 ||| ((r >>> 3) <<< 10) ||| ((g >>> 3) <<< 5) ||| (b >>> 3)) &&& 0xFF] ∧
    LPD6803Controller.commandFull r g b
      = 0x8000 ||| ((r >>> 3) <<< 10) ||| ((g >>> 3) <<< 5) ||| (b >>> 3) ∧
    (0x8000 ||| ((r >>> 3) <<< 10) ||| ((g >>> 3) <<< 5) ||| (b >>> 3))
      = 2 ^ 15 + (r >>> 3) * 2 ^ 10 + (g >>> 3) * 2 ^ 5 + (b >>> 3) ∧
    (r >>> 3 < 2 ^ 5 ∧ g >>> 3 < 2 ^ 5 ∧ b >>> 3 < 2 ^ 5) ∧
    (LPD6803Controller.commandHigh r g >>> 8) &&& 0xFF
      = (LPD6803Controller.commandFull r g b >>> 8) &&& 0xFF := by
  have hp := hbytes (r, g, b) (List.mem_append_right _ (List.mem_cons_self _ _))
  have hr : r < 256 := hp.1
  have hg : g < 256 := hp.2.1
  have hb : b < 256 := hp.2.2
  have hw := LPD6803_word_eq r g b hr hg hb
  have hh := LPD6803_commandHigh_eq r g hr hg
  have hf := LPD6803_commandFull_eq r g b hr hg hb
  have s8 : ∀ x : Nat, x >>> 8 = x / 256 := fun x => by
    rw [Nat.shiftRight_eq_div_pow]
  have s3 : ∀ x : Nat, x >>> 3 = x / 8 := fun x => by
    rw [Nat.shiftRight_eq_div_pow]
  refine ⟨?_, LPD6803_pixelStream_length pre, LPD6803_pixelStream_length post, rfl,
    LPD6803_writePixel_out spi r g b hr hg hb, ?_, ?_, ?_, ?_⟩
  · rw [LPD6803_showPixels_out fuel _ spi hbytes hfuel, LPD6803_pixelStream_append]
    simp only [LPD6803Controller.pixelStream, List.append_assoc]
  · rw [hw, hf]
  · rw [hw, s3, s3, s3]
    omega
  · rw [s3, s3, s3]
    omega
  · rw [hh, hf, s8, s8]
    simp only [and_FF]
    omega

theorem C23_LPD6803_pixel_word_witness :
    LPD6803Controller.showPixels 1 ([(1, 2, 3)] ++ (255, 128, 7) :: [(9, 9, 9)])
        { out := [] }
      = some { out := ({ out := [] } : SPIOutput).out ++ [0x00, 0x00, 0x00, 0x00]
                ++ (LPD6803Controller.pixelStream [(1, 2, 3)]
                    ++ [LPD6803Controller.pixelWord 255 128 7 >>> 8,
                        LPD6803Controller.pixelWord 255 128 7 &&& 0xFF]
                    ++ LPD6803Controller.pixelStream [(9, 9, 9)])
                ++ repeatFrame [0xFF, 0x00, 0x00, 0x00]
                    (([(1, 2, 3)] ++ (255, 128, 7) :: [(9, 9, 9)]).length / 32 + 1) } :=
  (C23_LPD6803_pixel_word 1 { out := [] } [(1, 2, 3)] [(9, 9, 9)] 255 128 7
    (by decide) (by decide)).1

/-- C24: for every 8-bit input `d`, `LPD8806_ADJUST::adjust(d)` computed
without truncation lies in `[0x80, 0xFF]`, so the conversion to u8 changes
nothing, the high bit of every emitted data byte is set and the `+1` rounding
term never overflows 8 bits: `adjust(253) == adjust(254) == adjust(255) == 0xFF`. -/
theorem C24_LPD8806_adjust_range (d : Nat) (hd : d < 256) :
    0x80 ≤ LPD8806Controller.adjustInt d ∧
    LPD8806Controller.adjustInt d ≤ 0xFF ∧
    LPD8806Controller.adjust d = LPD8806Controller.adjustInt d ∧
    LPD8806Controller.adjust d &&& 0x80 = 0x80 ∧
    LPD8806Controller.adjust 253 = 0xFF ∧
    LPD8806Controller.adjust 254 = 0xFF ∧
    LPD8806Controller.adjust 255 = 0xFF :=
  have h := LPD8806_adjust_range d hd
  ⟨h.1, h.2.1, h.2.2.1, h.2.2.2, by decide, by decide, by decide⟩

theorem C24_LPD8806_adjust_range_witness :
    0x80 ≤ LPD8806Controller.adjustInt 253 ∧ LPD8806Controller.adjustInt 253 ≤ 0xFF :=
  have h := C24_LPD8806_adjust_range 253 (by decide)
  ⟨h.1, h.2.1⟩

/-- C25: for LPD8806 the wire-length gap between two lanes is not always a
whole number of 3-byte inert frames: for the LED counts 21 < 22 (on every
`size_t` of at least 8 bits) `calculateBytes` is 64 and 68, and the gap 4 is
not divisible by `getPaddingLEDFrameSize() == 3`; it is one whole frame plus
one filler byte (`getPaddingByte() == 0x00`). -/
theorem C25_LPD8806_gap_not_whole_frames (w : Nat) (hw : 8 ≤ w) :
    (21 : Nat) < 22 ∧
    LPD8806Controller.calculateBytes w 21 = 64 ∧
    LPD8806Controller.calculateBytes w 22 = 68 ∧
    LPD8806Controller.getPaddingLEDFrameSize = 3 ∧
    ¬ (LPD8806Controller.getPaddingLEDFrameSize ∣
        LPD8806Controller.calculateBytes w 22 - LPD8806Controller.calculateBytes w 21) ∧
    LPD8806Controller.calculateBytes w 22 - LPD8806Controller.calculateBytes w 21
      = 1 * LPD8806Controller.getPaddingLEDFrameSize + 1 ∧
    LPD8806Controller.getPaddingByte = 0x00 := by
  have hp : 2 ^ 8 ≤ 2 ^ w := Nat.pow_le_pow_right (by decide) hw
  have h21 : LPD8806Controller.calculateBytes w 21 = 64 := by
    rw [LPD8806_calculateBytes_exact (by omega)]
  have h22 : LPD8806Controller.calculateBytes w 22 = 68 := by
    rw [LPD8806_calculateBytes_exact (by omega)]
  rw [h21, h22]
  exact ⟨by decide, rfl, rfl, rfl, by decide, by decide, rfl⟩

theorem C25_LPD8806_gap_not_whole_frames_witness :
    LPD8806Controller.calculateBytes 16 21 = 64 ∧
    LPD8806Controller.calculateBytes 16 22 = 68 :=
  have h := C25_LPD8806_gap_not_whole_frames 16 (by decide)
  ⟨h.2.1, h.2.2.1⟩

/-- C26: for each of LPD8806, WS2801, APA102 and P9813, `calculateBytes` is
strictly increasing in the LED count absent overflow: for `n1 < n2`, when the
byte count of `n2` is computed without `size_t` overflow,
`calculateBytes(n1) < calculateBytes(n2)`, so the larger of the two wire
lengths is that of the lane with more LEDs. -/
theorem C26_calculateBytes_strictly_increasing (w n1 n2 : Nat) (hlt : n1 < n2) :
    (3 * n2 + 63 + (3 * n2 + 63) / 64 < 2 ^ w →
      LPD8806Controller.calculateBytes w n1 < LPD8806Controller.calculateBytes w n2 ∧
      max (LPD8806Controller.calculateBytes w n1) (LPD8806Controller.calculateBytes w n2)
        = LPD8806Controller.calculateBytes w n2) ∧
    (3 * n2 < 2 ^ w →
      WS2801Controller.calculateBytes w n1 < WS2801Controller.calculateBytes w n2 ∧
      max (WS2801Controller.calculateBytes w n1) (WS2801Controller.calculateBytes w n2)
        = WS2801Controller.calculateBytes w n2) ∧
    (4 + 4 * n2 + 4 * (n2 / 32 + 1) < 2 ^ w →
      APA102Controller.calculateBytes w n1 < APA102Controller.calculateBytes w n2 ∧
      max (APA102Controller.calculateBytes w n1) (APA102Controller.calculateBytes w n2)
        = APA102Controller.calculateBytes w n2) ∧
    (4 * n2 + 8 < 2 ^ w →
      P9813Controller.calculateBytes w n1 < P9813Controller.calculateBytes w n2 ∧
      max (P9813Controller.calculateBytes w n1) (P9813Controller.calculateBytes w n2)
        = P9813Controller.calculateBytes w n2) := by
  have hd32 : n1 / 32 ≤ n2 / 32 := Nat.div_le_div_right (Nat.le_of_lt hlt)
  have hd64 : (3 * n1 + 63) / 64 ≤ (3 * n2 + 63) / 64 := Nat.div_le_div_right (by omega)
  refine ⟨fun h => ?_, fun h => ?_, fun h => ?_, fun h => ?_⟩
  · rw [LPD8806_calculateBytes_exact h, LPD8806_calculateBytes_exact (by omega)]
    exact ⟨by omega, max_eq_right (by omega)⟩
  · rw [WS2801_calculateBytes_exact h, WS2801_calculateBytes_exact (by omega)]
    exact ⟨by omega, max_eq_right (by omega)⟩
  · rw [APA102_calculateBytes_exact h, APA102_calculateBytes_exact (by omega)]
    exact ⟨by omega, max_eq_right (by omega)⟩
  · rw [P9813_calculateBytes_exact h, P9813_calculateBytes_exact (by omega)]
    exact ⟨by omega, max_eq_right (by omega)⟩

theorem C26_calculateBytes_strictly_increasing_witness :
    LPD8806Controller.calculateBytes 16 21 < LPD8806Controller.calculateBytes 16 22 ∧
    WS2801Controller.calculateBytes 16 21 < WS2801Controller.calculateBytes 16 22 ∧
    APA102Controller.calculateBytes 16 21 < APA102Controller.calculateBytes 16 22 ∧
    P9813Controller.calculateBytes 16 21 < P9813Controller.calculateBytes 16 22 :=
  have h := C26_calculateBytes_strictly_increasing 16 21 22 (by decide)
  ⟨(h.1 (by decide)).1, (h.2.1 (by decide)).1, (h.2.2.1 (by decide)).1,
    (h.2.2.2 (by decide)).1⟩

/-- C27: in APA102 `getGlobalBrightnessAndScalingFactors` with
`FASTLED_USE_GLOBAL_BRIGHTNESS == 1` (non-HD path), for every scaled triple
`(s0, s1, s2)` of 8-bit values with maximum `m`: the global brightness
`(((m + 1) * 31 - 1) >> 8) + 1` lies in `[1, 31]`, so the division is never by
zero, and each rescaled channel `(31 * s_i + (brightness >> 1)) / brightness`
is at most 255, so storing it back into a u8 never truncates. -/
theorem C27_APA102_global_brightness (s0 s1 s2 : Nat) (h0 : s0 < 256) (h1 : s1 < 256)
    (h2 : s2 < 256) :
    APA102Controller.globalBrightness s0 s1 s2
      = (((max (max s0 s1) s2 + 1) * 31 - 1) >>> 8) + 1 ∧
    1 ≤ APA102Controller.globalBrightness s0 s1 s2 ∧
    APA102Controller.globalBrightness s0 s1 s2 ≤ 31 ∧
    APA102Controller.globalBrightness s0 s1 s2 ≠ 0 ∧
    APA102Controller.rescaleInt (APA102Controller.globalBrightness s0 s1 s2) s0 ≤ 255 ∧
    APA102Controller.rescaleInt (APA102Controller.globalBrightness s0 s1 s2) s1 ≤ 255 ∧
    APA102Controller.rescaleInt (APA102Controller.globalBrightness s0 s1 s2) s2 ≤ 255 ∧
    APA102Controller.getGlobalBrightnessAndScalingFactors true s0 s1 s2
      = (APA102Controller.rescaleInt (APA102Controller.globalBrightness s0 s1 s2) s0,
         APA102Controller.rescaleInt (APA102Controller.globalBrightness s0 s1 s2) s1,
         APA102Controller.rescaleInt (APA102Controller.globalBrightness s0 s1 s2) s2,
         APA102Controller.globalBrightness s0 s1 s2) := by
  have hm : max (max s0 s1) s2 < 256 := by
    simp only [max_lt_iff]
    exact ⟨⟨h0, h1⟩, h2⟩
  have hs0 : s0 ≤ max (max s0 s1) s2 := le_trans (le_max_left _ _) (le_max_left _ _)
  have hs1 : s1 ≤ max (max s0 s1) s2 := le_trans (le_max_right _ _) (le_max_left _ _)
  have hs2 : s2 ≤ max (max s0 s1) s2 := le_max_right _ _
  have hg := globalBrightness_eq s0 s1 s2 h0 h1 h2
  have r0 := rescaleInt_le _ s0 hm hs0
  have r1 := rescaleInt_le _ s1 hm hs1
  have r2 := rescaleInt_le _ s2 hm hs2
  rw [← hg] at r0 r1 r2
  have hle : APA102Controller.globalBrightness s0 s1 s2 ≤ 31 := by rw [hg]; omega
  refine ⟨?_, by rw [hg]; omega, hle, by rw [hg]; omega, r0, r1, r2, ?_⟩
  · rw [hg, Nat.shiftRight_eq_div_pow]
  · unfold APA102Controller.getGlobalBrightnessAndScalingFactors
    simp only [if_true]
    rw [Nat.mod_eq_of_lt (by omega : APA102Controller.rescaleInt _ s0 < 256),
      Nat.mod_eq_of_lt (by omega : APA102Controller.rescaleInt _ s1 < 256),
      Nat.mod_eq_of_lt (by omega : APA102Controller.rescaleInt _ s2 < 256),
      Nat.mod_eq_of_lt (by omega : APA102Controller.globalBrightness s0 s1 s2 < 256)]

theorem C27_APA102_global_brightness_witness :
    1 ≤ APA102Controller.globalBrightness 255 10 0 ∧
    APA102Controller.globalBrightness 255 10 0 ≤ 31 :=
  have h := C27_APA102_global_brightness 255 10 0 (by decide) (by decide) (by decide)
  ⟨h.2.1, h.2.2.1⟩

/-- C28: in APA102 `getGlobalBrightnessAndScalingFactors` with
`FASTLED_HD_COLOR_MIXING`, for every 8-bit brightness `x` the 5-bit output
brightness lies in `[0, 31]`, is non-decreasing in `x`, equals 31 for
`x == 255`, and equals 0 if and only if `x == 0`. -/
theorem C28_APA102_hd_brightness (x y : Nat) (hxy : x ≤ y) (hy : y < 256) :
    APA102Controller.hdBrightness x ≤ 31 ∧
    APA102Controller.hdBrightness x ≤ APA102Controller.hdBrightness y ∧
    APA102Controller.hdBrightness 255 = 31 ∧
    (APA102Controller.hdBrightness x = 0 ↔ x = 0) :=
  have h := hdBrightness_table x (by omega)
  ⟨h.1, hdBrightness_mono x y hxy hy, by decide, h.2.1⟩

theorem C28_APA102_hd_brightness_witness :
    APA102Controller.hdBrightness 1 ≤ 31 ∧
    APA102Controller.hdBrightness 1 ≤ APA102Controller.hdBrightness 200 ∧
    APA102Controller.hdBrightness 255 = 31 ∧
    (APA102Controller.hdBrightness 1 = 0 ↔ 1 = 0) :=
  C28_APA102_hd_brightness 1 200 (by decide) (by decide)

/-- C29: for every 8-bit `(r, g, b)`, `P9813Controller::writeLed` emits
exactly the 4 bytes `[top, b, g, r]` where
`top == 0xFF - (((b >> 6) << 4) | ((g >> 6) << 2) | (r >> 6))`: its two highest
bits are set (`top >= 0xC0`) and its low six bits are the bitwise complement of
the packed top-two-bit fields, which is the chip's checksum relation (for
every width of `int` of at least 8 bits). -/
theorem C29_P9813_writeLed (iw : Nat) (h8 : 8 ≤ iw) (spi : SPIOutput) (r g b : Nat)
    (hr : r < 256) (hg : g < 256) (hb : b < 256) :
    (P9813Controller.writeLed iw spi r g b).out
      = spi.out ++ [P9813Controller.topByte iw r g b, b, g, r] ∧
    P9813Controller.topByte iw r g b
      = 0xFF - (((b >>> 6) <<< 4) ||| ((g >>> 6) <<< 2) ||| (r >>> 6)) ∧
    0xC0 ≤ P9813Controller.topByte iw r g b ∧
    P9813Controller.topByte iw r g b ≤ 0xFF ∧
    P9813Controller.topByte iw r g b - 0xC0
      = 0x3F - (((b >>> 6) <<< 4) ||| ((g >>> 6) <<< 2) ||| (r >>> 6)) := by
  obtain ⟨ht, hp⟩ := P9813_topByte_eq iw r g b h8 hr hg hb
  refine ⟨?_, ht, by omega, by omega, by omega⟩
  rw [P9813_writeLed_out, Nat.mod_eq_of_lt (by omega : P9813Controller.topByte iw r g b < 256),
    Nat.mod_eq_of_lt hb, Nat.mod_eq_of_lt hg, Nat.mod_eq_of_lt hr]

theorem C29_P9813_writeLed_witness :
    P9813Controller.topByte 16 255 128 64
      = 0xFF - (((64 >>> 6) <<< 4) ||| ((128 >>> 6) <<< 2) ||| (255 >>> 6)) :=
  (C29_P9813_writeLed 16 (by decide) { out := [] } 255 128 64 (by decide) (by decide)
    (by decide)).2.1

/-- C30: for every `nLeds >= 0`, the do/while loop in
`APA102Controller::endBoundary(nLeds)` terminates after exactly
`floor(nLeds / 32) + 1` iterations (at least one, also for `nLeds == 0`): it is
still running while the fuel is at most `nLeds / 32` and returns once the fuel
reaches `nLeds / 32 + 1`; each iteration writes the 4 bytes of the 32-bit
`END_FRAME` most-significant byte first, so the end frame carries
`32 * (floor(nLeds / 32) + 1) > nLeds` clock bits. -/
theorem C30_APA102_endBoundary (END_FRAME : Nat) (hEF : END_FRAME < 2 ^ 32) (n fuel : Nat)
    (spi : SPIOutput) :
    (fuel ≤ n / 32 → APA102Controller.endBoundary END_FRAME fuel (n : Int) spi = none) ∧
    (n / 32 + 1 ≤ fuel →
      APA102Controller.endBoundary END_FRAME fuel (n : Int) spi
        = some { out := spi.out ++
            repeatFrame [END_FRAME / 2 ^ 24 % 256, END_FRAME / 2 ^ 16 % 256,
              END_FRAME / 2 ^ 8 % 256, END_FRAME % 256] (n / 32 + 1) }) ∧
    END_FRAME = (END_FRAME / 2 ^ 24 % 256) * 2 ^ 24 + (END_FRAME / 2 ^ 16 % 256) * 2 ^ 16
      + (END_FRAME / 2 ^ 8 % 256) * 2 ^ 8 + END_FRAME % 256 ∧
    1 ≤ n / 32 + 1 ∧
    (repeatFrame [END_FRAME / 2 ^ 24 % 256, END_FRAME / 2 ^ 16 % 256,
        END_FRAME / 2 ^ 8 % 256, END_FRAME % 256] (n / 32 + 1)).length = 4 * (n / 32 + 1) ∧
    8 * (4 * (n / 32 + 1)) = 32 * (n / 32 + 1) ∧
    n < 32 * (n / 32 + 1) := by
  have hb : ∀ s : Nat, (END_FRAME >>> s &&& 0xFF) % 256 % 256 = END_FRAME / 2 ^ s % 256 := by
    intro s
    rw [and_FF, Nat.shiftRight_eq_div_pow, Nat.mod_mod, Nat.mod_mod]
  have h0 : END_FRAME / 2 ^ 0 % 256 = END_FRAME % 256 := by norm_num
  refine ⟨?_, ?_, ?_, by omega, ?_, by omega, by omega⟩
  · intro hf
    unfold APA102Controller.endBoundary
    simp only [tdiv_32]
    exact endBoundaryLoop_none _ _ _ _ (n / 32) fuel spi hf
  · intro hf
    unfold APA102Controller.endBoundary
    simp only [tdiv_32]
    rw [endBoundaryLoop_out _ _ _ _ (n / 32) fuel spi hf, hb 24, hb 16, hb 8, hb 0, h0]
  · norm_num at hEF ⊢
    omega
  · rw [repeatFrame_length]
    rfl

theorem C30_APA102_endBoundary_witness :
    APA102Controller.endBoundary 0xFF000000 1 ((0 : Nat) : Int) { out := [] }
      = some { out := ({ out := [] } : SPIOutput).out ++
          repeatFrame [0xFF000000 / 2 ^ 24 % 256, 0xFF000000 / 2 ^ 16 % 256,
            0xFF000000 / 2 ^ 8 % 256, 0xFF000000 % 256] (0 / 32 + 1) } :=
  (C30_APA102_endBoundary 0xFF000000 (by decide) 0 1 { out := [] }).2.1 (by decide)

end FastLED
